import Mathlib

/-!
# Convolu: shape generator, convolution engine and value mapper

A shallow embedding of `src/script.js`.  JavaScript numbers are modelled by an
arbitrary linearly ordered field `α` with a floor function (exact arithmetic;
`ℚ` is the executable instance).  The three global grids are lists of rows,
`for` loops are folds over the index range, `Math.sqrt`, `Math.atan2` and
`Math.PI` are taken from a record `MathOps α`.  DOM effects (tooltips,
background colours) are returned as values instead of being written to the page.
-/

namespace Convolu

/-! ## Grids and loops -/

/-- A two-dimensional JavaScript array: a list of rows. -/
abbrev Grid (α : Type) := List (List α)

/-- The read `g[i][j]`; positions outside the array are never read by the program
and yield `0` here. -/
def Grid.get {α : Type} [Zero α] (g : Grid α) (i j : Nat) : α :=
  (g.getD i []).getD j 0

/-- The write `g[i][j] = v` on an existing position. -/
def Grid.set {α : Type} (g : Grid α) (i j : Nat) (v : α) : Grid α :=
  List.set g i ((g.getD i []).set j v)

/-- The grid `Array(n).fill(null).map(() => Array(n).fill(0))`. -/
def zeros {α : Type} [Zero α] (n : Nat) : Grid α :=
  List.replicate n (List.replicate n 0)

/-- A grid with `n` rows, each of `w` cells. -/
def Grid.Dims {α : Type} (n w : Nat) (g : Grid α) : Prop :=
  g.length = n ∧ ∀ row ∈ g, List.length row = w

/-- The loop `for (let i = lo; i < hi; i++) s = body i s`. -/
def forLoop {σ : Type} (lo hi : Nat) (s : σ) (body : Nat → σ → σ) : σ :=
  (List.range' lo (hi - lo)).foldl (fun s i => body i s) s

/-! ## Constants and state (script.js lines 1-15) -/

def inputSize : Nat := 25
def kernelSize : Nat := 3
def outputSize : Nat := inputSize - kernelSize + 1

/-- The three global grids of the script. -/
structure State (α : Type) where
  inputGrid : Grid α
  kernelGrid : Grid α
  outputGrid : Grid α

/-! ## Convolution (script.js lines 359-376) -/

/-- The grid part of `performConvolution`: every output cell is overwritten with the
window sum accumulated in `sum`.  The closing call of `updateOutputGrid` only
repaints the page. -/
def performConvolution {α : Type} [LinearOrderedField α] (s : State α) : State α :=
  let outputGrid :=
    forLoop 0 outputSize s.outputGrid fun i outputGrid =>
      forLoop 0 outputSize outputGrid fun j outputGrid =>
        let sum : α :=
          forLoop 0 kernelSize 0 fun ki sum =>
            forLoop 0 kernelSize sum fun kj sum =>
              sum + s.inputGrid.get (i + ki) (j + kj) * s.kernelGrid.get ki kj
        outputGrid.set i j sum
  { s with outputGrid := outputGrid }

/-! ## Shape generator (script.js lines 17-148) -/

/-- The transcendental part of the JavaScript `Math` object used by the shape
generator: `Math.sqrt`, `Math.atan2` and `Math.PI`. -/
structure MathOps (α : Type) where
  sqrt : α → α
  atan2 : α → α → α
  pi : α

/-- What the proofs use of `Math.sqrt` and `Math.PI`: the square root is monotone and
exact on squares of natural numbers, and `Math.PI` is positive. -/
structure MathOps.Sound {α : Type} [LinearOrderedField α] (m : MathOps α) : Prop where
  sqrt_mono : ∀ x y : α, x ≤ y → m.sqrt x ≤ m.sqrt y
  sqrt_sq : ∀ n : Nat, m.sqrt ((n : α) * (n : α)) = (n : α)
  pi_pos : 0 < m.pi

/-- The function `generateShapePattern(shapeType)`. -/
def generateShapePattern {α : Type} [LinearOrderedField α] [FloorRing α] (m : MathOps α)
    (shapeType : String) : Grid α :=
  let size : Nat := 25
  let center : α := 12
  let padding : Nat := 4
  let pattern : Grid α := zeros size
  if shapeType = "circle" then
    let radius : α := 7
    forLoop 0 size pattern fun i pattern =>
      forLoop 0 size pattern fun j pattern =>
        let dx : α := (i : α) - center
        let dy : α := (j : α) - center
        let dist : α := m.sqrt (dx * dx + dy * dy)
        if dist < radius - 0.5 then
          pattern.set i j 1
        else if dist < radius + 0.5 then
          pattern.set i j (max 0 (1 - (dist - radius + 0.5)))
        else pattern
  else if shapeType = "square" then
    let side : Nat := 17
    forLoop padding (padding + side) pattern fun i pattern =>
      forLoop padding (padding + side) pattern fun j pattern =>
        let distToEdge : α :=
          min (min (min ((i : α) - padding) ((padding : α) + side - 1 - i))
            ((j : α) - padding)) ((padding : α) + side - 1 - j)
        if distToEdge > 1 then
          pattern.set i j 1
        else if distToEdge ≥ 0 then
          pattern.set i j distToEdge
        else pattern
  else if shapeType = "triangle" then
    let height : Nat := 15
    forLoop padding (padding + height) pattern fun i pattern =>
      forLoop 0 size pattern fun j pattern =>
        let y : α := (i : α) - padding
        let x : α := (j : α) - center
        let halfWidth : α := ((height : α) - y) / 2
        if |x| < halfWidth - 0.5 then
          pattern.set i j 1
        else if |x| < halfWidth + 0.5 then
          pattern.set i j (max 0 (1 - (|x| - halfWidth + 0.5)))
        else pattern
  else if shapeType = "diamond" then
    let radius : α := 7
    forLoop 0 size pattern fun i pattern =>
      forLoop 0 size pattern fun j pattern =>
        let dx : α := |(i : α) - center|
        let dy : α := |(j : α) - center|
        let dist : α := dx + dy
        if dist < radius - 0.5 then
          pattern.set i j 1
        else if dist < radius + 0.5 then
          pattern.set i j (max 0 (1 - (dist - radius + 0.5)))
        else pattern
  else if shapeType = "cross" then
    let thickness : α := 3
    let length : α := 15
    forLoop 0 size pattern fun i pattern =>
      forLoop 0 size pattern fun j pattern =>
        let dx : α := |(i : α) - center|
        let dy : α := |(j : α) - center|
        if dy < thickness ∧ dx < length / 2 then
          let dist : α := min dy (length / 2 - dx)
          pattern.set i j (if dist > 0.5 then 1 else dist * 2)
        else if dx < thickness ∧ dy < length / 2 then
          let dist : α := min dx (length / 2 - dy)
          pattern.set i j (if dist > 0.5 then 1 else dist * 2)
        else pattern
  else if shapeType = "star" then
    let outerRadius : α := 8
    let innerRadius : α := 3
    let points : α := 5
    forLoop 0 size pattern fun i pattern =>
      forLoop 0 size pattern fun j pattern =>
        let dx : α := (i : α) - center
        let dy : α := (j : α) - center
        let angle : α := m.atan2 dy dx
        let dist : α := m.sqrt (dx * dx + dy * dy)
        let normalizedAngle : α := (angle + m.pi) / (2 * m.pi / points)
        let pointIndex : Int := ⌊normalizedAngle⌋
        let localAngle : α := (normalizedAngle - pointIndex) * (2 * m.pi / points)
        let radius : α := if pointIndex % 2 = 0 then outerRadius else innerRadius
        let nextRadius : α := if pointIndex % 2 = 0 then innerRadius else outerRadius
        let currentRadius : α :=
          radius + (nextRadius - radius) * (localAngle / (2 * m.pi / points))
        if dist < currentRadius - 0.5 then
          pattern.set i j 1
        else if dist < currentRadius + 0.5 then
          pattern.set i j (max 0 (1 - (dist - currentRadius + 0.5)))
        else pattern
  else pattern

/-- The lookup `shapePatterns[shape]` in the table of the six precomputed patterns;
`none` is the `undefined` of a key that is not in the table. -/
def shapePatterns {α : Type} [LinearOrderedField α] [FloorRing α] (m : MathOps α)
    (shape : String) : Option (Grid α) :=
  if shape = "circle" then some (generateShapePattern m "circle")
  else if shape = "square" then some (generateShapePattern m "square")
  else if shape = "triangle" then some (generateShapePattern m "triangle")
  else if shape = "diamond" then some (generateShapePattern m "diamond")
  else if shape = "cross" then some (generateShapePattern m "cross")
  else if shape = "star" then some (generateShapePattern m "star")
  else none

/-- The function `loadShapePattern(shape)`. -/
def loadShapePattern {α : Type} [LinearOrderedField α] [FloorRing α] (m : MathOps α)
    (shape : String) (s : State α) : State α :=
  match shapePatterns m shape with
  | some pattern =>
    let inputGrid :=
      forLoop 0 inputSize s.inputGrid fun i inputGrid =>
        forLoop 0 inputSize inputGrid fun j inputGrid =>
          inputGrid.set i j (pattern.get i j)
    performConvolution { s with inputGrid := inputGrid }
  | none => s

/-! ## Mutators (script.js lines 169-181, 222-234, 378-412) -/

/-- The click handler of input cell `(i, j)`.  `newValue` is what `prompt` returned
after `parseFloat`: `none` for a cancelled prompt (`null`), `some none` for a text
that parses to `NaN`, `some (some v)` for the number `v`.  The second component
tells whether `alert` was called. -/
def inputCellClick {α : Type} [LinearOrderedField α] (i j : Nat)
    (newValue : Option (Option α)) (s : State α) : State α × Bool :=
  match newValue with
  | none => (s, false)
  | some none => (s, true)
  | some (some val) =>
    if val ≥ 0 ∧ val ≤ 1 then
      (performConvolution { s with inputGrid := s.inputGrid.set i j val }, false)
    else
      (s, true)

/-- The click handler of kernel cell `(i, j)`, with `newValue` as in `inputCellClick`. -/
def kernelCellClick {α : Type} [LinearOrderedField α] (i j : Nat)
    (newValue : Option (Option α)) (s : State α) : State α × Bool :=
  match newValue with
  | none => (s, false)
  | some none => (s, true)
  | some (some val) =>
    (performConvolution { s with kernelGrid := s.kernelGrid.set i j val }, false)

/-- The function `randomizeInput()`; `random k` is the value of the `k`-th call of `Math.random()`. -/
def randomizeInput {α : Type} [LinearOrderedField α] (random : Nat → α) (s : State α) :
    State α :=
  let inputGrid :=
    forLoop 0 inputSize s.inputGrid fun i inputGrid =>
      forLoop 0 inputSize inputGrid fun j inputGrid =>
        inputGrid.set i j (random (i * inputSize + j))
  performConvolution { s with inputGrid := inputGrid }

/-- The function `resetInput()`. -/
def resetInput {α : Type} [LinearOrderedField α] (s : State α) : State α :=
  performConvolution { s with inputGrid := zeros inputSize }

/-- The function `randomizeKernel()`, with `random` as in `randomizeInput`. -/
def randomizeKernel {α : Type} [LinearOrderedField α] (random : Nat → α) (s : State α) :
    State α :=
  let kernelGrid :=
    forLoop 0 kernelSize s.kernelGrid fun i kernelGrid =>
      forLoop 0 kernelSize kernelGrid fun j kernelGrid =>
        kernelGrid.set i j ((random (i * kernelSize + j) - 0.5) * 2)
  performConvolution { s with kernelGrid := kernelGrid }

/-- The function `resetKernel()`. -/
def resetKernel {α : Type} [LinearOrderedField α] (s : State α) : State α :=
  performConvolution { s with kernelGrid := zeros kernelSize }

/-- The grids after the top-level statements of the script (lines 6-15). -/
def initialState {α : Type} [LinearOrderedField α] : State α :=
  { inputGrid := zeros inputSize
    kernelGrid := [[-0.1, -0.1, -0.1], [-0.1, 0.8, -0.1], [-0.1, -0.1, -0.1]]
    outputGrid := zeros outputSize }

/-- The `DOMContentLoaded` handler (lines 415-436): the three `create...Grid` calls
and the listener registrations only build the page. -/
def onDOMContentLoaded {α : Type} [LinearOrderedField α] [FloorRing α] (m : MathOps α)
    (s : State α) : State α :=
  performConvolution (loadShapePattern m "circle" s)

/-- One user action on the page. -/
inductive Action (α : Type) where
  | inputCell (i j : Nat) (newValue : Option (Option α))
  | kernelCell (i j : Nat) (newValue : Option (Option α))
  | randomInput (random : Nat → α)
  | resetInput
  | randomKernel (random : Nat → α)
  | resetKernel
  | loadShape (shape : String)

/-- The handler run for an action.  Cell handlers exist for the cells of the grids
only, which `Reachable` records. -/
def Action.run {α : Type} [LinearOrderedField α] [FloorRing α] (m : MathOps α) :
    Action α → State α → State α
  | .inputCell i j v, s => (inputCellClick i j v s).1
  | .kernelCell i j v, s => (kernelCellClick i j v s).1
  | .randomInput r, s => randomizeInput r s
  | .resetInput, s => Convolu.resetInput s
  | .randomKernel r, s => randomizeKernel r s
  | .resetKernel, s => Convolu.resetKernel s
  | .loadShape shape, s => loadShapePattern m shape s

/-- The actions the page offers: cell clicks address existing cells. -/
def Action.Offered {α : Type} : Action α → Prop
  | .inputCell i j _ => i < inputSize ∧ j < inputSize
  | .kernelCell i j _ => i < kernelSize ∧ j < kernelSize
  | _ => True

/-- The states of the page: the state at script load, the state after the
`DOMContentLoaded` handler, and every state an offered action leads to. -/
inductive Reachable {α : Type} [LinearOrderedField α] [FloorRing α] (m : MathOps α) :
    State α → Prop where
  | init : Reachable m initialState
  | loaded : Reachable m (onDOMContentLoaded m initialState)
  | step (a : Action α) (s : State α) : a.Offered → Reachable m s → Reachable m (a.run m s)

/-! ## Value mapper for the output grid (script.js lines 290-356) -/

/-- A JavaScript number that is finite or one of the two infinities, as held by the
accumulators `minVal` and `maxVal`. -/
inductive Ext (α : Type) where
  | negInf
  | fin (x : α)
  | posInf
deriving DecidableEq

/-- The call `Math.min(a, v)` for a finite `v`. -/
def Ext.min {α : Type} [LinearOrder α] : Ext α → α → Ext α
  | .negInf, _ => .negInf
  | .fin x, v => .fin (Min.min x v)
  | .posInf, v => .fin v

/-- The call `Math.max(a, v)` for a finite `v`. -/
def Ext.max {α : Type} [LinearOrder α] : Ext α → α → Ext α
  | .negInf, v => .fin v
  | .fin x, v => .fin (Max.max x v)
  | .posInf, _ => .posInf

/-- The call `Math.abs(a)`. -/
def Ext.abs {α : Type} [LinearOrderedField α] : Ext α → Ext α
  | .negInf => .posInf
  | .fin x => .fin |x|
  | .posInf => .posInf

/-- The call `Math.max(a, b)`. -/
def Ext.max2 {α : Type} [LinearOrder α] : Ext α → Ext α → Ext α
  | .posInf, _ => .posInf
  | _, .posInf => .posInf
  | .negInf, b => b
  | a, .negInf => a
  | .fin x, .fin y => .fin (Max.max x y)

/-- The test `a > 0`. -/
def Ext.isPos {α : Type} [LinearOrderedField α] : Ext α → Bool
  | .negInf => false
  | .fin x => decide (0 < x)
  | .posInf => true

/-- The quotient `x / a` of a finite `x`; dividing by an infinity gives zero. -/
def Ext.divInto {α : Type} [LinearOrderedField α] (x : α) : Ext α → α
  | .fin y => x / y
  | _ => 0

/-- The call `Math.round(x)`: the nearest integer, ties towards plus infinity. -/
def mathRound {α : Type} [LinearOrderedField α] [FloorRing α] (x : α) : Int :=
  ⌊x + 0.5⌋

/-- What `updateOutputGrid` writes to the page: the `rgb` background of each output
cell in document order, and the two numbers formatted into the range display. -/
structure OutputView (α : Type) where
  colors : List (Int × Int × Int)
  range : Ext α × Ext α

/-- The function `updateOutputGrid()`, reading the grid `outputGrid`; the page holds
`outputSize * outputSize` output cells.  The tooltip texts and the `toFixed(2)`
formatting of the range are not modelled. -/
def updateOutputGrid {α : Type} [LinearOrderedField α] [FloorRing α] (outputGrid : Grid α) :
    OutputView α :=
  let minMax : Ext α × Ext α :=
    outputGrid.foldl (fun acc row =>
      row.foldl (fun acc val => (acc.1.min val, acc.2.max val)) acc) (Ext.posInf, Ext.negInf)
  let minVal := minMax.1
  let maxVal := minMax.2
  let maxAbs := Ext.max2 minVal.abs maxVal.abs
  let colors := (List.range (outputSize * outputSize)).map fun index =>
    let row := index / outputSize
    let col := index % outputSize
    let value := outputGrid.get row col
    if |value| < 0.0001 then
      ((0 : Int), (0 : Int), (0 : Int))
    else if value < 0 then
      let intensity : α := if maxAbs.isPos then maxAbs.divInto |value| else 0
      (mathRound (100 + intensity * 155), 0, 0)
    else
      let intensity : α := if maxAbs.isPos then maxAbs.divInto value else 0
      (0, mathRound (100 + intensity * 155), mathRound (100 + intensity * 155))
  { colors := colors, range := (minVal, maxVal) }

/-! ## Notions used to state the properties -/

/-- The local `dist` of the circle and star branches of `generateShapePattern` at cell
`(i, j)`: `Math.sqrt(dx * dx + dy * dy)` with `dx = i - center`, `dy = j - center`. -/
def euclidDist {α : Type} [LinearOrderedField α] (m : MathOps α) (i j : Nat) : α :=
  m.sqrt (((i : α) - 12) * ((i : α) - 12) + ((j : α) - 12) * ((j : α) - 12))

/-- The local `dist` of the diamond branch at cell `(i, j)`. -/
def diamondDist {α : Type} [LinearOrderedField α] (i j : Nat) : α :=
  |(i : α) - 12| + |(j : α) - 12|

/-- The local `distToEdge` of the square branch at cell `(i, j)`. -/
def squareDistToEdge {α : Type} [LinearOrderedField α] (i j : Nat) : α :=
  min (min (min ((i : α) - (4 : Nat)) (((4 : Nat) : α) + (17 : Nat) - 1 - i))
    ((j : α) - (4 : Nat))) (((4 : Nat) : α) + (17 : Nat) - 1 - j)

/-- The local `halfWidth` of the triangle branch in row `i`. -/
def triangleHalfWidth {α : Type} [LinearOrderedField α] (i : Nat) : α :=
  (((15 : Nat) : α) - ((i : α) - (4 : Nat))) / 2

/-- The value the cross branch writes from the local `dist`. -/
def crossFill {α : Type} [LinearOrderedField α] (dist : α) : α :=
  if dist > 0.5 then 1 else dist * 2

/-- The local `normalizedAngle` of the star branch at cell `(i, j)`. -/
def starNormalizedAngle {α : Type} [LinearOrderedField α] (m : MathOps α) (i j : Nat) : α :=
  (m.atan2 ((j : α) - 12) ((i : α) - 12) + m.pi) / (2 * m.pi / 5)

/-- The local `pointIndex` of the star branch at cell `(i, j)`. -/
def starPointIndex {α : Type} [LinearOrderedField α] [FloorRing α] (m : MathOps α)
    (i j : Nat) : Int :=
  ⌊starNormalizedAngle m i j⌋

/-- The local `currentRadius` of the star branch at cell `(i, j)`. -/
def starCurrentRadius {α : Type} [LinearOrderedField α] [FloorRing α] (m : MathOps α)
    (i j : Nat) : α :=
  (if starPointIndex m i j % 2 = 0 then (8 : α) else 3) +
    ((if starPointIndex m i j % 2 = 0 then (3 : α) else 8) -
      (if starPointIndex m i j % 2 = 0 then (8 : α) else 3)) *
      ((starNormalizedAngle m i j - starPointIndex m i j) * (2 * m.pi / 5) / (2 * m.pi / 5))

/-- The value the circle, triangle, diamond and star branches leave in a cell whose
boundary metric is `d`, for the radius `r`: the two `if` branches, and the `0` of the
fresh pattern when neither is taken. -/
def bandFill {α : Type} [LinearOrderedField α] (d r : α) : α :=
  if d < r - 0.5 then 1 else if d < r + 0.5 then max 0 (1 - (d - r + 0.5)) else 0

/-- The function `clamp(x, lo, hi)` of the specification. -/
def clamp {α : Type} [LinearOrder α] (x lo hi : α) : α :=
  max lo (min x hi)

/-- The generic banded anti-aliasing rule as the specification words it:
`1` if `d < R - 0.5`, `clamp(1 - (d - R + 0.5), 0, 1)` if `d < R + 0.5`, else `0`. -/
def specBanded {α : Type} [LinearOrderedField α] (d r : α) : α :=
  if d < r - 0.5 then 1
  else if d < r + 0.5 then clamp (1 - (d - r + 0.5)) 0 1
  else 0

/-- The names of the six shapes. -/
def shapeNames : List String :=
  ["circle", "square", "triangle", "diamond", "cross", "star"]

/-- An executable `Math` record over the rationals, used to evaluate the model:
the square root rounded down to six decimals, `355 / 113` for `Math.PI`, and a
piecewise quadratic approximation of `Math.atan2` with the quadrant rules of the
original (`atan2(0, x) = PI` for `x < 0`, `atan2(0, 0) = 0`). -/
def ratMath : MathOps ℚ where
  sqrt x := (Nat.sqrt (⌊x * 10 ^ 12⌋.toNat) : ℚ) / 10 ^ 6
  pi := 355 / 113
  atan2 y x :=
    let unit (t : ℚ) : ℚ := t * (355 / 113 / 4) + 273 / 1000 * t * (1 - t)
    let quad (y x : ℚ) : ℚ :=
      if y ≤ x then unit (y / x) else 355 / 113 / 2 - unit (x / y)
    if x = 0 ∧ y = 0 then 0
    else if 0 ≤ x ∧ 0 ≤ y then quad y x
    else if x < 0 ∧ 0 ≤ y then 355 / 113 - quad y (-x)
    else if x < 0 ∧ y < 0 then -(355 / 113 - quad (-y) (-x))
    else -(quad (-y) x)

/-- A sample output grid: one positive and one negative cell. -/
def sampleOutput : Grid ℚ :=
  ((zeros 23).set 0 0 1).set 1 1 (-2)

/-- A loop body that touches at most the cell `(i, j)`, replacing its content `x`
by `F i j x`. -/
def CellLocal {α : Type} [Zero α] (n w : Nat) (body : Nat → Nat → Grid α → Grid α)
    (F : Nat → Nat → α → α) : Prop :=
  ∀ i j g, Grid.Dims n w g → i < n → j < w →
    Grid.Dims n w (body i j g) ∧
    ∀ i2 j2, (body i j g).get i2 j2 = if i2 = i ∧ j2 = j then F i j (g.get i j) else g.get i2 j2

/-- The valid cross-correlation of `input` with `kernel` at output cell `(i, j)`. -/
def windowSum {α : Type} [LinearOrderedField α] (input kernel : Grid α) (i j : Nat) : α :=
  ∑ ki in Finset.range 3, ∑ kj in Finset.range 3, input.get (i + ki) (j + kj) * kernel.get ki kj

/-- The function `performConvolution` run on the operands `input` and `kernel` with a fresh output
grid. -/
def convolve {α : Type} [LinearOrderedField α] (input kernel : Grid α) : Grid α :=
  (performConvolution
    { inputGrid := input, kernelGrid := kernel, outputGrid := zeros outputSize }).outputGrid

/-- The cellwise combination `a * g1 + b * g2` of two grids. -/
def Grid.lin {α : Type} [LinearOrderedField α] (a : α) (g1 : Grid α) (b : α) (g2 : Grid α) :
    Grid α :=
  List.zipWith (List.zipWith (fun x y => a * x + b * y)) g1 g2

/-- The grids of the page have their fixed sizes. -/
structure State.WF {α : Type} (s : State α) : Prop where
  input : Grid.Dims 25 25 s.inputGrid
  kernel : Grid.Dims 3 3 s.kernelGrid
  output : Grid.Dims 23 23 s.outputGrid

/-- The output grid is the full convolution of the current input grid with the
current kernel grid. -/
def State.InSync {α : Type} [LinearOrderedField α] (s : State α) : Prop :=
  Grid.Dims 23 23 s.outputGrid ∧
  ∀ i j, i < 23 → j < 23 → s.outputGrid.get i j = windowSum s.inputGrid s.kernelGrid i j

/-! ## Value mapper for the kernel grid (script.js lines 242-266) -/

/-- A CSS colour written by the script: an `rgb(r, g, b)` triple or one of the fixed
`hsl(...)` colours of the theme, kept as its text. -/
inductive CssColor where
  | rgb (r g b : Int)
  | hsl (text : String)
deriving DecidableEq

/-- The body of the `cells.forEach` of `updateKernelGrid` for a cell of value `value`:
the `backgroundColor` and the text `color` it sets. -/
def kernelCellStyle {α : Type} [LinearOrderedField α] [FloorRing α] (value : α) :
    CssColor × CssColor :=
  if value > 0 then
    let intensity : Int := min 255 (mathRound (value * 200))
    (CssColor.rgb (max 0 (100 - intensity)) (max 0 (200 - intensity)) 255,
      CssColor.hsl "210 40% 98%")
  else if value < 0 then
    let intensity : Int := min 255 (mathRound (|value| * 200))
    (CssColor.rgb 255 (max 0 (100 - intensity)) (max 0 (100 - intensity)),
      CssColor.hsl "210 40% 98%")
  else
    (CssColor.hsl "217.2 32.6% 17.5%", CssColor.hsl "215 20.2% 65.1%")

/-- The function `updateKernelGrid()`: the styles of the `kernelSize * kernelSize` kernel
cells of the page in document order.  The `toFixed(2)` cell texts are not modelled. -/
def updateKernelGrid {α : Type} [LinearOrderedField α] [FloorRing α] (kernelGrid : Grid α) :
    List (CssColor × CssColor) :=
  (List.range (kernelSize * kernelSize)).map fun index =>
    let row := index / kernelSize
    let col := index % kernelSize
    let value := kernelGrid.get row col
    kernelCellStyle value

/-- The vividness `I(v) = min(255, round(|v| * 200))` of a kernel value, as the
specification words it. -/
def vividness {α : Type} [LinearOrderedField α] [FloorRing α] (v : α) : Int :=
  min 255 (round (|v| * 200))

/-! ## Further notions used to state the properties -/

/-- The number of non-zero cells in row `i` of a 25-column grid. -/
def rowWidth {α : Type} [Zero α] [DecidableEq α] (g : Grid α) (i : Nat) : Nat :=
  ((List.range 25).filter (fun j => decide (g.get i j ≠ 0))).length

/-- What the proofs about the star sectors use of `Math.atan2`: its values lie in
`[-PI, PI]`, it returns `PI` on the negative horizontal axis, and `PI` is positive. -/
structure MathOps.AngleSound {α : Type} [LinearOrderedField α] (m : MathOps α) : Prop where
  pi_pos : 0 < m.pi
  atan2_ge : ∀ y x : α, -m.pi ≤ m.atan2 y x
  atan2_le : ∀ y x : α, m.atan2 y x ≤ m.pi
  atan2_neg_axis : ∀ x : α, x < 0 → m.atan2 0 x = m.pi

/-- Every input cell holds a value between 0 and 1. -/
def State.InputInRange {α : Type} [LinearOrderedField α] (s : State α) : Prop :=
  Grid.Dims 25 25 s.inputGrid ∧
  ∀ i j, i < 25 → j < 25 → 0 ≤ s.inputGrid.get i j ∧ s.inputGrid.get i j ≤ 1

/-- The random draws an action consumes lie in `[0, 1)`, as `Math.random()` promises. -/
def Action.UnitDraws {α : Type} [LinearOrderedField α] : Action α → Prop
  | .randomInput random => ∀ k, 0 ≤ random k ∧ random k < 1
  | .randomKernel random => ∀ k, 0 ≤ random k ∧ random k < 1
  | _ => True

/-- The states reachable from the state at script load when every random draw lies in
`[0, 1)`. -/
inductive ReachableUnit {α : Type} [LinearOrderedField α] [FloorRing α] (m : MathOps α) :
    State α → Prop where
  | init : ReachableUnit m initialState
  | loaded : ReachableUnit m (onDOMContentLoaded m initialState)
  | step (a : Action α) (s : State α) : a.Offered → a.UnitDraws → ReachableUnit m s →
      ReachableUnit m (a.run m s)

/-- A sample state: a single input cell set to 1 at `(1, 2)`, a kernel with nine
distinct entries, and an output grid holding a stale value 9 at `(5, 5)`. -/
def sampleState : State ℚ :=
  { inputGrid := (zeros 25).set 1 2 1
    kernelGrid := [[1, 2, 3], [4, 5, 6], [7, 8, 9]]
    outputGrid := (zeros 23).set 5 5 9 }

/-- A sample output grid with two cells below the zero threshold of the value mapper. -/
def tinyOutput : Grid ℚ :=
  ((zeros 23).set 0 0 (1 / 100000)).set 1 1 (-(1 / 100000))

/-! ## Loop and grid lemmas -/

theorem forLoop_stop {σ : Type} (lo : Nat) (s : σ) (body : Nat → σ → σ) :
    forLoop lo lo s body = s := by
  simp [forLoop]

theorem forLoop_succ {σ : Type} (lo hi : Nat) (h : lo ≤ hi) (s : σ) (body : Nat → σ → σ) :
    forLoop lo (hi + 1) s body = body hi (forLoop lo hi s body) := by
  unfold forLoop
  have e : hi + 1 - lo = (hi - lo) + 1 := by omega
  rw [e, List.range'_concat, List.foldl_append]
  have e2 : lo + (hi - lo) = hi := by omega
  simp [e2]

/-- Loop invariant rule for `forLoop`. -/
theorem forLoop_inv {σ : Type} (P : Nat → σ → Prop) (lo hi : Nat) (h : lo ≤ hi) (s : σ)
    (body : Nat → σ → σ) (h0 : P lo s)
    (hstep : ∀ i t, lo ≤ i → i < hi → P i t → P (i + 1) (body i t)) :
    P hi (forLoop lo hi s body) := by
  induction hi with
  | zero =>
    have : lo = 0 := by omega
    subst this
    simpa [forLoop_stop] using h0
  | succ k ih =>
    rcases Nat.lt_or_ge k lo with hk | hk
    · have : lo = k + 1 := by omega
      subst this
      simpa [forLoop_stop] using h0
    · rw [forLoop_succ lo k hk]
      exact hstep k _ hk (Nat.lt_succ_self k)
        (ih hk (fun i t h1 h2 hp => hstep i t h1 (Nat.lt_succ_of_lt h2) hp))

theorem Grid.dims_set {α : Type} {n w : Nat} {g : Grid α} (hg : Grid.Dims n w g)
    (i j : Nat) (v : α) : Grid.Dims n w (g.set i j v) := by
  by_cases hi : i < g.length
  · obtain ⟨h1, h2⟩ := hg
    refine ⟨by simp [Grid.set, h1], ?_⟩
    intro row hrow
    unfold Grid.set at hrow
    rcases List.mem_or_eq_of_mem_set hrow with h | h
    · exact h2 row h
    · subst h
      rw [List.length_set]
      have : g.getD i [] = g[i] := by simp [List.getD_eq_getElem?_getD, hi]
      rw [this]
      exact h2 _ (List.getElem_mem hi)
  · have : g.set i j v = g := by
      unfold Grid.set
      exact List.set_eq_of_length_le (by omega)
    rw [this]
    exact hg

theorem Grid.get_set {α : Type} [Zero α] {n w : Nat} {g : Grid α} (hg : Grid.Dims n w g)
    (i j : Nat) (hi : i < n) (hj : j < w) (v : α) (i2 j2 : Nat) :
    (g.set i j v).get i2 j2 = if i2 = i ∧ j2 = j then v else g.get i2 j2 := by
  obtain ⟨h1, h2⟩ := hg
  have hil : i < g.length := by omega
  have hrow : g.getD i [] = g[i] := by simp [List.getD_eq_getElem?_getD, hil]
  have hlen : (g[i]).length = w := h2 _ (List.getElem_mem hil)
  unfold Grid.get Grid.set
  rw [hrow]
  by_cases e1 : i2 = i
  · subst e1
    by_cases e2 : j2 = j
    · subst e2
      simp [List.getD_eq_getElem?_getD, hil, hlen, hj]
    · have e3 : j ≠ j2 := fun h => e2 h.symm
      simp [List.getD_eq_getElem?_getD, hil, e2, List.getElem?_set_ne e3]
  · have e3 : i ≠ i2 := fun h => e1 h.symm
    simp [List.getD_eq_getElem?_getD, e1, List.getElem?_set_ne e3]

theorem row_fill {α : Type} [Zero α] {n w : Nat} (c d : Nat) (hcd : c ≤ d) (hd : d ≤ w)
    (body : Nat → Nat → Grid α → Grid α) (F : Nat → Nat → α → α)
    (hbody : CellLocal n w body F) (i : Nat) (hi : i < n) (g : Grid α)
    (hg : Grid.Dims n w g) :
    Grid.Dims n w (forLoop c d g (fun j t => body i j t)) ∧
    ∀ i2 j2, (forLoop c d g (fun j t => body i j t)).get i2 j2 =
      if i2 = i ∧ (c ≤ j2 ∧ j2 < d) then F i j2 (g.get i j2) else g.get i2 j2 := by
  refine forLoop_inv (fun k t => k ≤ w → (Grid.Dims n w t ∧ ∀ i2 j2, t.get i2 j2 =
      if i2 = i ∧ (c ≤ j2 ∧ j2 < k) then F i j2 (g.get i j2) else g.get i2 j2))
    c d hcd g _ ?_ ?_ hd
  · intro _
    refine ⟨hg, fun i2 j2 => ?_⟩
    have : ¬ (i2 = i ∧ (c ≤ j2 ∧ j2 < c)) := by omega
    simp [this]
  · intro k t hck hkd ih hkw
    obtain ⟨ht, hget⟩ := ih (by omega)
    obtain ⟨hd2, hg2⟩ := hbody i k t ht hi (by omega)
    refine ⟨hd2, fun i2 j2 => ?_⟩
    rw [hg2 i2 j2]
    by_cases e : i2 = i ∧ j2 = k
    · have h1 : ¬ (i = i ∧ (c ≤ k ∧ k < k)) := by omega
      have h2 : (i2 = i ∧ (c ≤ j2 ∧ j2 < k + 1)) := by omega
      rw [if_pos e, hget i k, if_neg h1, if_pos h2, e.2]
    · rw [if_neg e, hget i2 j2]
      by_cases e3 : i2 = i ∧ (c ≤ j2 ∧ j2 < k)
      · have h2 : i2 = i ∧ (c ≤ j2 ∧ j2 < k + 1) := by omega
        rw [if_pos e3, if_pos h2]
      · have h2 : ¬ (i2 = i ∧ (c ≤ j2 ∧ j2 < k + 1)) := by omega
        rw [if_neg e3, if_neg h2]

/-- Two nested `for` loops over a block of cells, with a body that rewrites only the
current cell, rewrite exactly the cells of the block. -/
theorem block_fill {α : Type} [Zero α] {n w : Nat} (a b c d : Nat) (hab : a ≤ b) (hb : b ≤ n)
    (hcd : c ≤ d) (hd : d ≤ w)
    (body : Nat → Nat → Grid α → Grid α) (F : Nat → Nat → α → α)
    (hbody : CellLocal n w body F) (g : Grid α) (hg : Grid.Dims n w g) :
    Grid.Dims n w (forLoop a b g (fun i t => forLoop c d t (fun j u => body i j u))) ∧
    ∀ i2 j2, (forLoop a b g (fun i t => forLoop c d t (fun j u => body i j u))).get i2 j2 =
      if (a ≤ i2 ∧ i2 < b) ∧ (c ≤ j2 ∧ j2 < d) then F i2 j2 (g.get i2 j2) else g.get i2 j2 := by
  refine forLoop_inv (fun k t => k ≤ n → (Grid.Dims n w t ∧ ∀ i2 j2, t.get i2 j2 =
      if (a ≤ i2 ∧ i2 < k) ∧ (c ≤ j2 ∧ j2 < d) then F i2 j2 (g.get i2 j2) else g.get i2 j2))
    a b hab g _ ?_ ?_ hb
  · intro _
    refine ⟨hg, fun i2 j2 => ?_⟩
    have : ¬ ((a ≤ i2 ∧ i2 < a) ∧ (c ≤ j2 ∧ j2 < d)) := by omega
    simp [this]
  · intro k t hak hkb ih hkn
    obtain ⟨ht, hget⟩ := ih (by omega)
    obtain ⟨hd2, hg2⟩ := row_fill c d hcd hd body F hbody k (by omega) t ht
    refine ⟨hd2, fun i2 j2 => ?_⟩
    rw [hg2 i2 j2]
    by_cases e : i2 = k ∧ (c ≤ j2 ∧ j2 < d)
    · have h1 : ¬ ((a ≤ k ∧ k < k) ∧ (c ≤ j2 ∧ j2 < d)) := by omega
      have h2 : (a ≤ i2 ∧ i2 < k + 1) ∧ (c ≤ j2 ∧ j2 < d) := by omega
      rw [if_pos e, if_pos h2, hget k j2, if_neg h1, e.1]
    · rw [if_neg e, hget i2 j2]
      by_cases e3 : (a ≤ i2 ∧ i2 < k) ∧ (c ≤ j2 ∧ j2 < d)
      · have h2 : (a ≤ i2 ∧ i2 < k + 1) ∧ (c ≤ j2 ∧ j2 < d) := by omega
        rw [if_pos e3, if_pos h2]
      · have h2 : ¬ ((a ≤ i2 ∧ i2 < k + 1) ∧ (c ≤ j2 ∧ j2 < d)) := by omega
        rw [if_neg e3, if_neg h2]

theorem zeros_dims {α : Type} [Zero α] (n : Nat) : Grid.Dims n n (zeros n : Grid α) := by
  refine ⟨by simp [zeros], ?_⟩
  intro row hrow
  rw [zeros, List.mem_replicate] at hrow
  simp [hrow.2]

theorem zeros_get {α : Type} [Zero α] (n i j : Nat) : (zeros n : Grid α).get i j = 0 := by
  unfold zeros Grid.get
  by_cases hi : i < n
  · by_cases hj : j < n
    · simp [List.getD_eq_getElem?_getD, hi, hj]
    · simp [List.getD_eq_getElem?_getD, hi, hj]
  · simp [List.getD_eq_getElem?_getD, List.getElem?_replicate, hi]

/-- Two grids of the same dimensions with the same cells are equal. -/
theorem Grid.ext_get {α : Type} [Zero α] {n w : Nat} {g h : Grid α} (hg : Grid.Dims n w g)
    (hh : Grid.Dims n w h) (e : ∀ i j, i < n → j < w → g.get i j = h.get i j) : g = h := by
  obtain ⟨g1, g2⟩ := hg
  obtain ⟨h1, h2⟩ := hh
  apply List.ext_getElem (by omega)
  intro i hi1 hi2
  have l1 : (g[i]).length = w := g2 _ (List.getElem_mem hi1)
  have l2 : (h[i]).length = w := h2 _ (List.getElem_mem hi2)
  apply List.ext_getElem (by omega)
  intro j hj1 hj2
  have := e i j (by omega) (by omega)
  simpa [Grid.get, List.getD_eq_getElem?_getD, hi1, hi2, hj1, hj2] using this

/-! ## Convolution engine -/

theorem window_sum {α : Type} [LinearOrderedField α] (f : Nat → Nat → α) :
    (forLoop 0 kernelSize (0 : α) fun ki sum =>
      forLoop 0 kernelSize sum fun kj sum => sum + f ki kj) =
    ∑ ki in Finset.range 3, ∑ kj in Finset.range 3, f ki kj := by
  simp [forLoop, kernelSize, List.range', Finset.sum_range_succ]
  ring

theorem performConvolution_cells {α : Type} [LinearOrderedField α] (s : State α)
    (hout : Grid.Dims 23 23 s.outputGrid) :
    Grid.Dims 23 23 (performConvolution s).outputGrid ∧
    ∀ i j, i < 23 → j < 23 → (performConvolution s).outputGrid.get i j =
      ∑ ki in Finset.range 3, ∑ kj in Finset.range 3,
        s.inputGrid.get (i + ki) (j + kj) * s.kernelGrid.get ki kj := by
  have hloc : CellLocal 23 23
      (fun i j (g : Grid α) => g.set i j
        (forLoop 0 kernelSize (0 : α) fun ki sum =>
          forLoop 0 kernelSize sum fun kj sum =>
            sum + s.inputGrid.get (i + ki) (j + kj) * s.kernelGrid.get ki kj))
      (fun i j _ => ∑ ki in Finset.range 3, ∑ kj in Finset.range 3,
        s.inputGrid.get (i + ki) (j + kj) * s.kernelGrid.get ki kj) := by
    intro i j g hg hi hj
    refine ⟨Grid.dims_set hg _ _ _, fun i2 j2 => ?_⟩
    rw [Grid.get_set hg i j hi hj, window_sum]
  have e23 : outputSize = 23 := rfl
  have h := block_fill (n := 23) (w := 23) 0 23 0 23 (Nat.zero_le _) (le_refl _) (Nat.zero_le _)
    (le_refl _) _ _ hloc s.outputGrid hout
  simp only [performConvolution, e23]
  refine ⟨h.1, fun i j hi hj => ?_⟩
  have h2 := h.2 i j
  have hc : (0 ≤ i ∧ i < 23) ∧ (0 ≤ j ∧ j < 23) := by omega
  rw [if_pos hc] at h2
  exact h2

theorem Grid.get_outside {α : Type} [Zero α] {n w : Nat} {g : Grid α} (hg : Grid.Dims n w g)
    (i j : Nat) (h : n ≤ i ∨ w ≤ j) : g.get i j = 0 := by
  obtain ⟨g1, g2⟩ := hg
  unfold Grid.get
  by_cases hi : i < g.length
  · have l1 : (g[i]).length = w := g2 _ (List.getElem_mem hi)
    have hj : w ≤ j := by omega
    have : (g[i])[j]? = none := List.getElem?_eq_none (by omega)
    simp [List.getD_eq_getElem?_getD, hi, this]
  · have : g[i]? = none := List.getElem?_eq_none (by omega)
    simp [List.getD_eq_getElem?_getD, this]

theorem convolve_cells {α : Type} [LinearOrderedField α] (input kernel : Grid α) :
    Grid.Dims 23 23 (convolve input kernel) ∧
    ∀ i j, i < 23 → j < 23 → (convolve input kernel).get i j = windowSum input kernel i j := by
  have h := performConvolution_cells
    ({ inputGrid := input, kernelGrid := kernel, outputGrid := zeros outputSize } : State α)
    (zeros_dims 23)
  exact h

theorem Grid.lin_get {α : Type} [LinearOrderedField α] {n w : Nat} (a b : α) {g1 g2 : Grid α}
    (h1 : Grid.Dims n w g1) (h2 : Grid.Dims n w g2) (i j : Nat) :
    (Grid.lin a g1 b g2).get i j = a * g1.get i j + b * g2.get i j := by
  obtain ⟨a1, a2⟩ := h1
  obtain ⟨b1, b2⟩ := h2
  unfold Grid.get Grid.lin
  by_cases hi : i < n
  · have hi1 : i < g1.length := by omega
    have hi2 : i < g2.length := by omega
    have l1 : (g1[i]).length = w := a2 _ (List.getElem_mem hi1)
    have l2 : (g2[i]).length = w := b2 _ (List.getElem_mem hi2)
    by_cases hj : j < w
    · have hj1 : j < (g1[i]).length := by omega
      have hj2 : j < (g2[i]).length := by omega
      simp [List.getD_eq_getElem?_getD, List.getElem?_zipWith, hi1, hi2, hj1, hj2]
    · have hj1 : (g1[i])[j]? = none := List.getElem?_eq_none (by omega)
      have hj2 : (g2[i])[j]? = none := List.getElem?_eq_none (by omega)
      simp [List.getD_eq_getElem?_getD, List.getElem?_zipWith, hi1, hi2, hj1, hj2]
  · have hi1 : g1[i]? = none := List.getElem?_eq_none (by omega)
    have hi2 : g2[i]? = none := List.getElem?_eq_none (by omega)
    simp [List.getD_eq_getElem?_getD, List.getElem?_zipWith, hi1, hi2]

theorem initialState_wf {α : Type} [LinearOrderedField α] : (initialState : State α).WF := by
  refine ⟨zeros_dims 25, ?_, zeros_dims 23⟩
  refine ⟨rfl, ?_⟩
  intro row hrow
  simp only [initialState, List.mem_cons, List.mem_singleton, List.not_mem_nil, or_false] at hrow
  rcases hrow with h | h | h <;> simp [h]

theorem sampleState_wf : sampleState.WF := by
  refine ⟨Grid.dims_set (zeros_dims 25) 1 2 1, ?_, Grid.dims_set (zeros_dims 23) 5 5 9⟩
  refine ⟨rfl, ?_⟩
  intro row hrow
  simp only [sampleState, List.mem_cons, List.mem_singleton, List.not_mem_nil, or_false] at hrow
  rcases hrow with h | h | h <;> simp [h]

theorem sampleState_input (i j : Nat) :
    sampleState.inputGrid.get i j = if i = 1 ∧ j = 2 then 1 else 0 := by
  have e : sampleState.inputGrid = (zeros 25).set 1 2 1 := rfl
  rw [e, Grid.get_set (zeros_dims 25) 1 2 (by omega) (by omega), zeros_get]

theorem sampleState_stale : sampleState.outputGrid.get 5 5 = 9 := by
  have e : sampleState.outputGrid = (zeros 23).set 5 5 9 := rfl
  rw [e, Grid.get_set (zeros_dims 23) 5 5 (by omega) (by omega)]
  simp

/-- C1: `performConvolution` leaves a 23 x 23 output grid (23 = 25 - 3 + 1) whose cell
`(i, j)`, for `0 <= i, j <= 22`, is the sum over `ki, kj` in `{0, 1, 2}` of
`input[i+ki][j+kj] * kernel[ki][kj]`: valid cross-correlation, the kernel is not
flipped. -/
theorem C1_performConvolution_cross_correlation {α : Type} [LinearOrderedField α]
    (s : State α) (hs : s.WF) :
    outputSize = 25 - 3 + 1 ∧
    Grid.Dims 23 23 (performConvolution s).outputGrid ∧
    ∀ i j, i ≤ 22 → j ≤ 22 →
      (performConvolution s).outputGrid.get i j =
        ∑ ki in Finset.range 3, ∑ kj in Finset.range 3,
          s.inputGrid.get (i + ki) (j + kj) * s.kernelGrid.get ki kj := by
  obtain ⟨hd, hc⟩ := performConvolution_cells s hs.output
  exact ⟨rfl, hd, fun i j hi hj => hc i j (by omega) (by omega)⟩

theorem C1_witness :
    sampleState.WF ∧
    (outputSize = 25 - 3 + 1 ∧
    Grid.Dims 23 23 (performConvolution sampleState).outputGrid ∧
    ∀ i j, i ≤ 22 → j ≤ 22 →
      (performConvolution sampleState).outputGrid.get i j =
        ∑ ki in Finset.range 3, ∑ kj in Finset.range 3,
          sampleState.inputGrid.get (i + ki) (j + kj) * sampleState.kernelGrid.get ki kj) ∧
    sampleState.inputGrid.get 1 2 = 1 ∧ sampleState.kernelGrid.get 1 2 = 6 ∧
    sampleState.kernelGrid.get 1 0 = 4 ∧
    (performConvolution sampleState).outputGrid.get 0 0 = 6 ∧
    (performConvolution sampleState).outputGrid.get 1 2 = 1 ∧
    sampleState.outputGrid.get 5 5 = 9 ∧
    (performConvolution sampleState).outputGrid.get 5 5 = 0 := by
  have h := C1_performConvolution_cross_correlation sampleState sampleState_wf
  have k00 : sampleState.kernelGrid.get 0 0 = 1 := by simp [sampleState, Grid.get]
  have k12 : sampleState.kernelGrid.get 1 2 = 6 := by simp [sampleState, Grid.get]
  have k10 : sampleState.kernelGrid.get 1 0 = 4 := by simp [sampleState, Grid.get]
  refine ⟨sampleState_wf, h, ?_, k12, k10, ?_, ?_, sampleState_stale, ?_⟩
  · rw [sampleState_input]; simp
  · rw [h.2.2 0 0 (by omega) (by omega)]
    simp [Finset.sum_range_succ, sampleState_input, k12]
  · rw [h.2.2 1 2 (by omega) (by omega)]
    simp [Finset.sum_range_succ, sampleState_input, k00]
  · rw [h.2.2 5 5 (by omega) (by omega)]
    simp [Finset.sum_range_succ, sampleState_input]

/-- C2: convolution is linear in the input: for every kernel, inputs `input1` and
`input2` of the same dimensions and scalars `a`, `b`, every cell of
`convolve (a * input1 + b * input2) kernel` equals
`a * convolve input1 kernel + b * convolve input2 kernel` at that cell. -/
theorem C2_convolve_linear {α : Type} [LinearOrderedField α] {n w : Nat}
    (kernel input1 input2 : Grid α) (a b : α)
    (h1 : Grid.Dims n w input1) (h2 : Grid.Dims n w input2) (i j : Nat) :
    (convolve (Grid.lin a input1 b input2) kernel).get i j =
      a * (convolve input1 kernel).get i j + b * (convolve input2 kernel).get i j := by
  by_cases h : i < 23 ∧ j < 23
  · obtain ⟨hi, hj⟩ := h
    rw [(convolve_cells _ kernel).2 i j hi hj, (convolve_cells input1 kernel).2 i j hi hj,
      (convolve_cells input2 kernel).2 i j hi hj]
    simp only [windowSum, Grid.lin_get a b h1 h2, Finset.mul_sum, ← Finset.sum_add_distrib]
    refine Finset.sum_congr rfl (fun ki _ => Finset.sum_congr rfl (fun kj _ => ?_))
    ring
  · have ho : 23 ≤ i ∨ 23 ≤ j := by omega
    rw [Grid.get_outside (convolve_cells _ kernel).1 i j ho,
      Grid.get_outside (convolve_cells input1 kernel).1 i j ho,
      Grid.get_outside (convolve_cells input2 kernel).1 i j ho]
    simp

theorem C2_witness :
    Grid.Dims 25 25 ((zeros 25 : Grid ℚ).set 0 0 1) ∧
    Grid.Dims 25 25 ((zeros 25 : Grid ℚ).set 1 1 (1 / 2)) ∧
    (convolve (Grid.lin 2 ((zeros 25 : Grid ℚ).set 0 0 1) 3 ((zeros 25 : Grid ℚ).set 1 1 (1 / 2)))
        initialState.kernelGrid).get 0 0 =
      2 * (convolve ((zeros 25 : Grid ℚ).set 0 0 1) initialState.kernelGrid).get 0 0 +
        3 * (convolve ((zeros 25 : Grid ℚ).set 1 1 (1 / 2)) initialState.kernelGrid).get 0 0 :=
  ⟨Grid.dims_set (zeros_dims 25) 0 0 1, Grid.dims_set (zeros_dims 25) 1 1 (1 / 2),
    C2_convolve_linear initialState.kernelGrid _ _ 2 3
      (Grid.dims_set (zeros_dims 25) 0 0 1) (Grid.dims_set (zeros_dims 25) 1 1 (1 / 2)) 0 0⟩

theorem resetKernel_cells {α : Type} [LinearOrderedField α] (s : State α) (hs : s.WF) :
    (resetKernel s).inputGrid = s.inputGrid ∧
    (resetKernel s).kernelGrid = zeros kernelSize ∧
    Grid.Dims 23 23 (resetKernel s).outputGrid ∧
    ∀ i j, (resetKernel s).outputGrid.get i j = 0 := by
  have h := performConvolution_cells ({ s with kernelGrid := zeros kernelSize } : State α)
    hs.output
  refine ⟨by simp only [resetKernel, performConvolution],
    by simp only [resetKernel, performConvolution], h.1, fun i j => ?_⟩
  by_cases hc : i < 23 ∧ j < 23
  · have h2 := h.2 i j hc.1 hc.2
    unfold resetKernel
    rw [h2]
    simp [zeros_get]
  · exact Grid.get_outside h.1 i j (by omega)

/-- C3: for every input grid, convolution with the all-zero kernel gives a 23 x 23
output in which every cell is 0: from any state with grids of the page's sizes, whatever
its input and whatever its output held before, `resetKernel` installs the all-zero
kernel, keeps the input, and `performConvolution` leaves a 23 x 23 output grid whose
cells are all 0. -/
theorem C3_zero_kernel {α : Type} [LinearOrderedField α] (s : State α) (hs : s.WF) :
    (resetKernel s).inputGrid = s.inputGrid ∧
    (resetKernel s).kernelGrid = zeros kernelSize ∧
    Grid.Dims 23 23 (resetKernel s).outputGrid ∧
    ∀ i j, (resetKernel s).outputGrid.get i j = 0 :=
  resetKernel_cells s hs

theorem C3_witness :
    sampleState.WF ∧ sampleState.inputGrid.get 1 2 = 1 ∧ sampleState.outputGrid.get 5 5 = 9 ∧
    ((resetKernel sampleState).inputGrid = sampleState.inputGrid ∧
    (resetKernel sampleState).kernelGrid = zeros kernelSize ∧
    Grid.Dims 23 23 (resetKernel sampleState).outputGrid ∧
    ∀ i j, (resetKernel sampleState).outputGrid.get i j = 0) :=
  ⟨sampleState_wf, by rw [sampleState_input]; simp, sampleState_stale,
    C3_zero_kernel sampleState sampleState_wf⟩

/-! ## Value mapper -/

theorem minMax_fold_fin {α : Type} [LinearOrder α] (l : List α) (a b : α) :
    ∃ mn mx : α,
      l.foldl (fun (acc : Ext α × Ext α) val => (acc.1.min val, acc.2.max val))
        (Ext.fin a, Ext.fin b) = (Ext.fin mn, Ext.fin mx) ∧
      (mn = a ∨ mn ∈ l) ∧ mn ≤ a ∧ (∀ x ∈ l, mn ≤ x) ∧
      (mx = b ∨ mx ∈ l) ∧ b ≤ mx ∧ (∀ x ∈ l, x ≤ mx) := by
  induction l generalizing a b with
  | nil => exact ⟨a, b, rfl, Or.inl rfl, le_refl _, by simp, Or.inl rfl, le_refl _, by simp⟩
  | cons v l ih =>
    obtain ⟨mn, mx, he, h1, h2, h3, h4, h5, h6⟩ := ih (min a v) (max b v)
    refine ⟨mn, mx, ?_, ?_, ?_, ?_, ?_, ?_, ?_⟩
    · simpa [List.foldl, Ext.min, Ext.max] using he
    · rcases h1 with h | h
      · rcases min_choice a v with e | e
        · left; rw [h, e]
        · right; rw [h, e]; simp
      · right; simp [h]
    · exact le_trans h2 (min_le_left _ _)
    · intro x hx
      rcases List.mem_cons.1 hx with e | e
      · rw [e]; exact le_trans h2 (min_le_right _ _)
      · exact h3 x e
    · rcases h4 with h | h
      · rcases max_choice b v with e | e
        · left; rw [h, e]
        · right; rw [h, e]; simp
      · right; simp [h]
    · exact le_trans (le_max_left _ _) h5
    · intro x hx
      rcases List.mem_cons.1 hx with e | e
      · rw [e]; exact le_trans (le_max_right _ _) h5
      · exact h6 x e

/-- On a non-empty list of cells the accumulators end as the least and the greatest
cell. -/
theorem minMax_fold {α : Type} [LinearOrder α] (l : List α) (hl : l ≠ []) :
    ∃ mn mx : α,
      l.foldl (fun (acc : Ext α × Ext α) val => (acc.1.min val, acc.2.max val))
        (Ext.posInf, Ext.negInf) = (Ext.fin mn, Ext.fin mx) ∧
      mn ∈ l ∧ (∀ x ∈ l, mn ≤ x) ∧ mx ∈ l ∧ (∀ x ∈ l, x ≤ mx) := by
  cases l with
  | nil => exact absurd rfl hl
  | cons v l =>
    obtain ⟨mn, mx, he, h1, h2, h3, h4, h5, h6⟩ := minMax_fold_fin l v v
    refine ⟨mn, mx, ?_, ?_, ?_, ?_, ?_⟩
    · simpa [List.foldl, Ext.min, Ext.max] using he
    · rcases h1 with h | h
      · simp [h]
      · simp [h]
    · intro x hx
      rcases List.mem_cons.1 hx with e | e
      · rw [e]; exact h2
      · exact h3 x e
    · rcases h4 with h | h
      · simp [h]
      · simp [h]
    · intro x hx
      rcases List.mem_cons.1 hx with e | e
      · rw [e]; exact h5
      · exact h6 x e

theorem Grid.mem_flatten_iff {α : Type} [Zero α] {n w : Nat} {g : Grid α}
    (hg : Grid.Dims n w g) (x : α) :
    x ∈ g.flatten ↔ ∃ i j, i < n ∧ j < w ∧ g.get i j = x := by
  obtain ⟨g1, g2⟩ := hg
  rw [List.mem_flatten]
  constructor
  · rintro ⟨row, hrow, hx⟩
    obtain ⟨i, hi, e⟩ := List.getElem_of_mem hrow
    obtain ⟨j, hj, e2⟩ := List.getElem_of_mem hx
    have hw : row.length = w := g2 row hrow
    refine ⟨i, j, by omega, by omega, ?_⟩
    subst e
    simp [Grid.get, List.getD_eq_getElem?_getD, hi, hj, e2]
  · rintro ⟨i, j, hi, hj, e⟩
    have hi1 : i < g.length := by omega
    have hw : (g[i]).length = w := g2 _ (List.getElem_mem hi1)
    have hj1 : j < (g[i]).length := by omega
    refine ⟨g[i], List.getElem_mem hi1, ?_⟩
    have : g.get i j = (g[i])[j] := by
      simp [Grid.get, List.getD_eq_getElem?_getD, hi1, hj1]
    rw [← e, this]
    exact List.getElem_mem hj1

theorem mathRound_eq_round {α : Type} [LinearOrderedField α] [FloorRing α] (x : α) :
    mathRound x = round x := by
  rw [round_eq, mathRound]
  norm_num

/-- What `updateOutputGrid` computes on a 23 x 23 grid: the range is the least and the
greatest cell, and each cell is painted by the three-way rule. -/
theorem updateOutputGrid_spec {α : Type} [LinearOrderedField α] [FloorRing α]
    (out : Grid α) (hd : Grid.Dims 23 23 out) :
    ∃ minVal maxVal : α,
      (∃ i j, i < 23 ∧ j < 23 ∧ out.get i j = minVal) ∧
      (∀ i j, i < 23 → j < 23 → minVal ≤ out.get i j) ∧
      (∃ i j, i < 23 ∧ j < 23 ∧ out.get i j = maxVal) ∧
      (∀ i j, i < 23 → j < 23 → out.get i j ≤ maxVal) ∧
      (updateOutputGrid out).range = (Ext.fin minVal, Ext.fin maxVal) ∧
      (updateOutputGrid out).colors.length = 23 * 23 ∧
      ∀ i j, i < 23 → j < 23 →
        (updateOutputGrid out).colors[i * 23 + j]? = some (
          if |out.get i j| < 0.0001 then (0, 0, 0)
          else if out.get i j < 0 then
            (round (100 + (if max |minVal| |maxVal| = 0 then 0
              else |out.get i j| / max |minVal| |maxVal|) * 155), 0, 0)
          else
            (0, round (100 + (out.get i j / max |minVal| |maxVal|) * 155),
              round (100 + (out.get i j / max |minVal| |maxVal|) * 155))) := by
  have hne : out.flatten ≠ [] := by
    have : out.get 0 0 ∈ out.flatten :=
      (Grid.mem_flatten_iff hd _).2 ⟨0, 0, by omega, by omega, rfl⟩
    exact List.ne_nil_of_mem this
  obtain ⟨mn, mx, he, h1, h2, h3, h4⟩ := minMax_fold out.flatten hne
  rw [List.foldl_flatten] at he
  have e23 : outputSize = 23 := rfl
  refine ⟨mn, mx, (Grid.mem_flatten_iff hd _).1 h1,
    fun i j hi hj => h2 _ ((Grid.mem_flatten_iff hd _).2 ⟨i, j, hi, hj, rfl⟩),
    (Grid.mem_flatten_iff hd _).1 h3,
    fun i j hi hj => h4 _ ((Grid.mem_flatten_iff hd _).2 ⟨i, j, hi, hj, rfl⟩), ?_, ?_, ?_⟩
  · simp only [updateOutputGrid, he]
  · simp [updateOutputGrid, e23]
  · intro i j hi hj
    have hlt : i * 23 + j < 23 * 23 := by omega
    have hdiv : (i * 23 + j) / 23 = i := by omega
    have hmod : (i * 23 + j) % 23 = j := by omega
    have hnn : (0 : α) ≤ max |mn| |mx| := le_trans (abs_nonneg mn) (le_max_left _ _)
    simp only [updateOutputGrid, he, e23, List.getElem?_map, List.getElem?_range hlt,
      Option.map_some', hdiv, hmod, Ext.abs, Ext.max2, Ext.isPos, Ext.divInto,
      mathRound_eq_round, decide_eq_true_eq]
    congr 1
    by_cases c1 : |out.get i j| < 0.0001
    · simp only [if_pos c1]
    · simp only [if_neg c1]
      by_cases c2 : out.get i j < 0
      · simp only [if_pos c2]
        by_cases c3 : max |mn| |mx| = 0
        · have c4 : ¬ (0 : α) < max |mn| |mx| := by rw [c3]; exact lt_irrefl _
          simp only [if_pos c3, if_neg c4]
        · have c4 : (0 : α) < max |mn| |mx| := lt_of_le_of_ne hnn (Ne.symm c3)
          simp only [if_neg c3, if_pos c4]
      · simp only [if_neg c2]
        have hv : (0 : α) < out.get i j := by
          rcases lt_or_eq_of_le (not_lt.1 c2) with h | h
          · exact h
          · exfalso; apply c1; rw [← h]; norm_num
        have hle : out.get i j ≤ mx :=
          h4 _ ((Grid.mem_flatten_iff hd _).2 ⟨i, j, hi, hj, rfl⟩)
        have c4 : (0 : α) < max |mn| |mx| :=
          lt_of_lt_of_le hv (le_trans hle (le_trans (le_abs_self mx) (le_max_right _ _)))
        simp only [if_pos c4]

/-- C4: the colour mapping of the output grid.  With `minVal` and `maxVal` the least
and greatest cell and `maxAbs = max |minVal| |maxVal|`, the reported range is
`(minVal, maxVal)` and the cell of value `v` is painted `(0, 0, 0)` if
`|v| < 0.0001`, else `(round (100 + intensity * 155), 0, 0)` with
`intensity = |v| / maxAbs` (0 if `maxAbs = 0`) if `v < 0`, else `(0, c, c)` with
`c = round (100 + (v / maxAbs) * 155)`. -/
theorem C4_output_colour_mapping {α : Type} [LinearOrderedField α] [FloorRing α]
    (out : Grid α) (hd : Grid.Dims 23 23 out) :
    ∃ minVal maxVal : α,
      (∃ i j, i < 23 ∧ j < 23 ∧ out.get i j = minVal) ∧
      (∀ i j, i < 23 → j < 23 → minVal ≤ out.get i j) ∧
      (∃ i j, i < 23 ∧ j < 23 ∧ out.get i j = maxVal) ∧
      (∀ i j, i < 23 → j < 23 → out.get i j ≤ maxVal) ∧
      (updateOutputGrid out).range = (Ext.fin minVal, Ext.fin maxVal) ∧
      (updateOutputGrid out).colors.length = 23 * 23 ∧
      ∀ i j, i < 23 → j < 23 →
        (updateOutputGrid out).colors[i * 23 + j]? = some (
          if |out.get i j| < 0.0001 then (0, 0, 0)
          else if out.get i j < 0 then
            (round (100 + (if max |minVal| |maxVal| = 0 then 0
              else |out.get i j| / max |minVal| |maxVal|) * 155), 0, 0)
          else
            (0, round (100 + (out.get i j / max |minVal| |maxVal|) * 155),
              round (100 + (out.get i j / max |minVal| |maxVal|) * 155))) :=
  updateOutputGrid_spec out hd

theorem C4_witness :
    Grid.Dims 23 23 sampleOutput ∧
    ∃ minVal maxVal : ℚ,
      (∃ i j, i < 23 ∧ j < 23 ∧ sampleOutput.get i j = minVal) ∧
      (∀ i j, i < 23 → j < 23 → minVal ≤ sampleOutput.get i j) ∧
      (∃ i j, i < 23 ∧ j < 23 ∧ sampleOutput.get i j = maxVal) ∧
      (∀ i j, i < 23 → j < 23 → sampleOutput.get i j ≤ maxVal) ∧
      (updateOutputGrid sampleOutput).range = (Ext.fin minVal, Ext.fin maxVal) ∧
      (updateOutputGrid sampleOutput).colors.length = 23 * 23 ∧
      ∀ i j, i < 23 → j < 23 →
        (updateOutputGrid sampleOutput).colors[i * 23 + j]? = some (
          if |sampleOutput.get i j| < 0.0001 then (0, 0, 0)
          else if sampleOutput.get i j < 0 then
            (round (100 + (if max |minVal| |maxVal| = 0 then 0
              else |sampleOutput.get i j| / max |minVal| |maxVal|) * 155), 0, 0)
          else
            (0, round (100 + (sampleOutput.get i j / max |minVal| |maxVal|) * 155),
              round (100 + (sampleOutput.get i j / max |minVal| |maxVal|) * 155))) :=
  ⟨Grid.dims_set (Grid.dims_set (zeros_dims 23) 0 0 1) 1 1 (-2),
    C4_output_colour_mapping sampleOutput
      (Grid.dims_set (Grid.dims_set (zeros_dims 23) 0 0 1) 1 1 (-2))⟩

/-! ## Shape generator -/

theorem condSet_local {α : Type} [Zero α] (n w : Nat) (c1 c2 : Nat → Nat → Prop)
    [∀ i j, Decidable (c1 i j)] [∀ i j, Decidable (c2 i j)] (v1 v2 : Nat → Nat → α) :
    CellLocal n w
      (fun i j (g : Grid α) =>
        if c1 i j then g.set i j (v1 i j) else if c2 i j then g.set i j (v2 i j) else g)
      (fun i j old => if c1 i j then v1 i j else if c2 i j then v2 i j else old) := by
  intro i j g hg hi hj
  by_cases h1 : c1 i j
  · simp only [if_pos h1]
    exact ⟨Grid.dims_set hg _ _ _, fun i2 j2 => Grid.get_set hg i j hi hj _ i2 j2⟩
  · simp only [if_neg h1]
    by_cases h2 : c2 i j
    · simp only [if_pos h2]
      exact ⟨Grid.dims_set hg _ _ _, fun i2 j2 => Grid.get_set hg i j hi hj _ i2 j2⟩
    · simp only [if_neg h2]
      refine ⟨hg, fun i2 j2 => ?_⟩
      by_cases e : i2 = i ∧ j2 = j
      · rw [if_pos e, e.1, e.2]
      · rw [if_neg e]

/-- Cells of a pattern drawn by two nested loops over the block
`[a, b) x [c, d)` of the all-zero 25 x 25 grid with a two-branch body. -/
theorem block_cond {α : Type} [Zero α] (a b c d : Nat) (hab : a ≤ b) (hb : b ≤ 25)
    (hcd : c ≤ d) (hd : d ≤ 25) (c1 c2 : Nat → Nat → Prop)
    [∀ i j, Decidable (c1 i j)] [∀ i j, Decidable (c2 i j)] (v1 v2 : Nat → Nat → α) :
    Grid.Dims 25 25 (forLoop a b (zeros 25 : Grid α) fun i t => forLoop c d t fun j u =>
        if c1 i j then u.set i j (v1 i j) else if c2 i j then u.set i j (v2 i j) else u) ∧
    ∀ i j, (forLoop a b (zeros 25 : Grid α) fun i t => forLoop c d t fun j u =>
        if c1 i j then u.set i j (v1 i j) else if c2 i j then u.set i j (v2 i j) else u).get i j =
      if (a ≤ i ∧ i < b) ∧ (c ≤ j ∧ j < d) then
        (if c1 i j then v1 i j else if c2 i j then v2 i j else 0)
      else 0 := by
  have h := block_fill (n := 25) (w := 25) a b c d hab hb hcd hd _ _
    (condSet_local 25 25 c1 c2 v1 v2) (zeros 25) (zeros_dims 25)
  refine ⟨h.1, fun i j => ?_⟩
  have h2 := h.2 i j
  rw [zeros_get] at h2
  exact h2

theorem circle_cells {α : Type} [LinearOrderedField α] [FloorRing α] (m : MathOps α) :
    Grid.Dims 25 25 (generateShapePattern m "circle") ∧
    ∀ i j, i < 25 → j < 25 →
      (generateShapePattern m "circle").get i j = bandFill (euclidDist m i j) 7 := by
  have h := block_cond (α := α) 0 25 0 25 (Nat.zero_le _) (le_refl _) (Nat.zero_le _) (le_refl _)
    (fun i j => euclidDist m i j < (7 : α) - 0.5) (fun i j => euclidDist m i j < (7 : α) + 0.5)
    (fun _ _ => 1) (fun i j => max 0 (1 - (euclidDist m i j - 7 + 0.5)))
  refine ⟨h.1, fun i j hi hj => ?_⟩
  have h2 := h.2 i j
  have hc : (0 ≤ i ∧ i < 25) ∧ (0 ≤ j ∧ j < 25) := by omega
  rw [if_pos hc] at h2
  exact h2

theorem diamond_cells {α : Type} [LinearOrderedField α] [FloorRing α] (m : MathOps α) :
    Grid.Dims 25 25 (generateShapePattern m "diamond") ∧
    ∀ i j, i < 25 → j < 25 →
      (generateShapePattern m "diamond").get i j = bandFill (diamondDist i j) 7 := by
  have h := block_cond (α := α) 0 25 0 25 (Nat.zero_le _) (le_refl _) (Nat.zero_le _) (le_refl _)
    (fun i j => diamondDist i j < (7 : α) - 0.5) (fun i j => diamondDist i j < (7 : α) + 0.5)
    (fun _ _ => 1) (fun i j => max 0 (1 - (diamondDist i j - 7 + 0.5)))
  refine ⟨h.1, fun i j hi hj => ?_⟩
  have h2 := h.2 i j
  have hc : (0 ≤ i ∧ i < 25) ∧ (0 ≤ j ∧ j < 25) := by omega
  rw [if_pos hc] at h2
  exact h2

theorem star_cells {α : Type} [LinearOrderedField α] [FloorRing α] (m : MathOps α) :
    Grid.Dims 25 25 (generateShapePattern m "star") ∧
    ∀ i j, i < 25 → j < 25 →
      (generateShapePattern m "star").get i j =
        bandFill (euclidDist m i j) (starCurrentRadius m i j) := by
  have h := block_cond (α := α) 0 25 0 25 (Nat.zero_le _) (le_refl _) (Nat.zero_le _) (le_refl _)
    (fun i j => euclidDist m i j < starCurrentRadius m i j - 0.5)
    (fun i j => euclidDist m i j < starCurrentRadius m i j + 0.5)
    (fun _ _ => 1) (fun i j => max 0 (1 - (euclidDist m i j - starCurrentRadius m i j + 0.5)))
  refine ⟨h.1, fun i j hi hj => ?_⟩
  have h2 := h.2 i j
  have hc : (0 ≤ i ∧ i < 25) ∧ (0 ≤ j ∧ j < 25) := by omega
  rw [if_pos hc] at h2
  exact h2

theorem triangle_cells {α : Type} [LinearOrderedField α] [FloorRing α] (m : MathOps α) :
    Grid.Dims 25 25 (generateShapePattern m "triangle") ∧
    ∀ i j, (generateShapePattern m "triangle").get i j =
      if (4 ≤ i ∧ i < 19) ∧ (0 ≤ j ∧ j < 25) then
        bandFill |(j : α) - 12| (triangleHalfWidth i)
      else 0 := by
  have h := block_cond (α := α) 4 19 0 25 (by omega) (by omega) (Nat.zero_le _) (le_refl _)
    (fun i j => |(j : α) - 12| < triangleHalfWidth i - 0.5)
    (fun i j => |(j : α) - 12| < triangleHalfWidth i + 0.5)
    (fun _ _ => 1) (fun i j => max 0 (1 - (|(j : α) - 12| - triangleHalfWidth i + 0.5)))
  have e : generateShapePattern m "triangle" =
      forLoop 4 19 (zeros 25 : Grid α) fun i t => forLoop 0 25 t fun j u =>
        if |(j : α) - 12| < triangleHalfWidth i - 0.5 then u.set i j 1
        else if |(j : α) - 12| < triangleHalfWidth i + 0.5 then
          u.set i j (max 0 (1 - (|(j : α) - 12| - triangleHalfWidth i + 0.5)))
        else u := rfl
  rw [e]
  exact h

theorem square_cells {α : Type} [LinearOrderedField α] [FloorRing α] (m : MathOps α) :
    Grid.Dims 25 25 (generateShapePattern m "square") ∧
    ∀ i j, (generateShapePattern m "square").get i j =
      if (4 ≤ i ∧ i < 21) ∧ (4 ≤ j ∧ j < 21) then
        (if squareDistToEdge (α := α) i j > 1 then 1
         else if squareDistToEdge (α := α) i j ≥ 0 then squareDistToEdge i j
         else 0)
      else 0 := by
  exact block_cond (α := α) 4 21 4 21 (by omega) (by omega) (by omega) (by omega)
    (fun i j => squareDistToEdge (α := α) i j > 1) (fun i j => squareDistToEdge (α := α) i j ≥ 0)
    (fun _ _ => 1) (fun i j => squareDistToEdge i j)

theorem cross_cells {α : Type} [LinearOrderedField α] [FloorRing α] (m : MathOps α) :
    Grid.Dims 25 25 (generateShapePattern m "cross") ∧
    ∀ i j, i < 25 → j < 25 → (generateShapePattern m "cross").get i j =
      if |(j : α) - 12| < 3 ∧ |(i : α) - 12| < 15 / 2 then
        crossFill (min |(j : α) - 12| (15 / 2 - |(i : α) - 12|))
      else if |(i : α) - 12| < 3 ∧ |(j : α) - 12| < 15 / 2 then
        crossFill (min |(i : α) - 12| (15 / 2 - |(j : α) - 12|))
      else 0 := by
  have h := block_cond (α := α) 0 25 0 25 (Nat.zero_le _) (le_refl _) (Nat.zero_le _) (le_refl _)
    (fun i j => |(j : α) - 12| < 3 ∧ |(i : α) - 12| < 15 / 2)
    (fun i j => |(i : α) - 12| < 3 ∧ |(j : α) - 12| < 15 / 2)
    (fun i j => crossFill (min |(j : α) - 12| (15 / 2 - |(i : α) - 12|)))
    (fun i j => crossFill (min |(i : α) - 12| (15 / 2 - |(j : α) - 12|)))
  refine ⟨h.1, fun i j hi hj => ?_⟩
  have h2 := h.2 i j
  have hc : (0 ≤ i ∧ i < 25) ∧ (0 ≤ j ∧ j < 25) := by omega
  rw [if_pos hc] at h2
  exact h2

theorem ratMath_sound : ratMath.Sound := by
  refine ⟨?_, ?_, by norm_num [ratMath]⟩
  · intro x y hxy
    simp only [ratMath]
    apply div_le_div_of_nonneg_right _ (by norm_num)
    have h1 : ⌊x * 10 ^ 12⌋.toNat ≤ ⌊y * 10 ^ 12⌋.toNat :=
      Int.toNat_le_toNat (Int.floor_mono (by nlinarith))
    exact_mod_cast Nat.sqrt_le_sqrt h1
  · intro n
    simp only [ratMath]
    have h1 : ((n : ℚ) * (n : ℚ) * 10 ^ 12) = (((n * 10 ^ 6 * (n * 10 ^ 6) : Nat) : Int) : ℚ) := by
      push_cast; ring
    rw [h1, Int.floor_intCast, Int.toNat_natCast, Nat.sqrt_eq]
    push_cast
    norm_num

theorem bandFill_range {α : Type} [LinearOrderedField α] (d r : α) :
    0 ≤ bandFill d r ∧ bandFill d r ≤ 1 := by
  unfold bandFill
  by_cases h1 : d < r - 0.5
  · simp [h1]
  · rw [if_neg h1]
    by_cases h2 : d < r + 0.5
    · rw [if_pos h2]
      refine ⟨le_max_left _ _, max_le zero_le_one ?_⟩
      have := not_lt.1 h1
      linarith
    · simp [h2]

theorem bandFill_zero {α : Type} [LinearOrderedField α] (d r : α) (h : r + 0.5 ≤ d) :
    bandFill d r = 0 := by
  unfold bandFill
  have h1 : ¬ d < r - 0.5 := by
    have : (0 : α) < 0.5 := by norm_num
    intro h'
    linarith
  rw [if_neg h1, if_neg (not_lt.2 h)]

theorem crossFill_range {α : Type} [LinearOrderedField α] (d : α) (h : 0 ≤ d) :
    0 ≤ crossFill d ∧ crossFill d ≤ 1 := by
  unfold crossFill
  by_cases h1 : d > 0.5
  · simp [h1]
  · rw [if_neg h1]
    have h2 := not_lt.1 h1
    have e : (0.5 : α) = 1 / 2 := by norm_num
    rw [e] at h2
    constructor
    · linarith
    · linarith

/-- Every cell of a generated pattern lies between 0 and 1. -/
theorem generateShapePattern_range {α : Type} [LinearOrderedField α] [FloorRing α]
    (m : MathOps α) (shape : String) (hshape : shape ∈ shapeNames) (i j : Nat)
    (hi : i < 25) (hj : j < 25) :
    Grid.Dims 25 25 (generateShapePattern m shape) ∧
    0 ≤ (generateShapePattern m shape).get i j ∧
    (generateShapePattern m shape).get i j ≤ 1 := by
  simp only [shapeNames, List.mem_cons, List.mem_singleton, List.not_mem_nil, or_false] at hshape
  rcases hshape with h | h | h | h | h | h <;> subst h
  · refine ⟨(circle_cells m).1, ?_⟩
    rw [(circle_cells m).2 i j hi hj]
    exact bandFill_range _ _
  · refine ⟨(square_cells m).1, ?_⟩
    rw [(square_cells m).2 i j]
    by_cases hb : (4 ≤ i ∧ i < 21) ∧ (4 ≤ j ∧ j < 21)
    · rw [if_pos hb]
      by_cases h1 : squareDistToEdge (α := α) i j > 1
      · simp [h1]
      · rw [if_neg h1]
        by_cases h2 : squareDistToEdge (α := α) i j ≥ 0
        · rw [if_pos h2]
          exact ⟨h2, not_lt.1 h1⟩
        · simp [h2]
    · simp [hb]
  · refine ⟨(triangle_cells m).1, ?_⟩
    rw [(triangle_cells m).2 i j]
    by_cases hb : (4 ≤ i ∧ i < 19) ∧ (0 ≤ j ∧ j < 25)
    · rw [if_pos hb]
      exact bandFill_range _ _
    · rw [if_neg hb]
      exact ⟨le_refl _, zero_le_one⟩
  · refine ⟨(diamond_cells m).1, ?_⟩
    rw [(diamond_cells m).2 i j hi hj]
    exact bandFill_range _ _
  · refine ⟨(cross_cells m).1, ?_⟩
    rw [(cross_cells m).2 i j hi hj]
    by_cases h1 : |(j : α) - 12| < 3 ∧ |(i : α) - 12| < 15 / 2
    · rw [if_pos h1]
      exact crossFill_range _ (le_min (abs_nonneg _) (by linarith [h1.2]))
    · rw [if_neg h1]
      by_cases h2 : |(i : α) - 12| < 3 ∧ |(j : α) - 12| < 15 / 2
      · rw [if_pos h2]
        exact crossFill_range _ (le_min (abs_nonneg _) (by linarith [h2.2]))
      · simp [h2]
  · refine ⟨(star_cells m).1, ?_⟩
    rw [(star_cells m).2 i j hi hj]
    exact bandFill_range _ _

/-- C5: for each of the six shapes, every cell of the 25 x 25 grid returned by
`generateShapePattern` holds a value `v` with `0 <= v <= 1`. -/
theorem C5_shape_values_in_unit_interval {α : Type} [LinearOrderedField α] [FloorRing α]
    (m : MathOps α) (shape : String) (hshape : shape ∈ shapeNames) (i j : Nat)
    (hi : i < 25) (hj : j < 25) :
    Grid.Dims 25 25 (generateShapePattern m shape) ∧
    0 ≤ (generateShapePattern m shape).get i j ∧
    (generateShapePattern m shape).get i j ≤ 1 :=
  generateShapePattern_range m shape hshape i j hi hj

theorem C5_witness :
    "star" ∈ shapeNames ∧ 5 < 25 ∧ 12 < 25 ∧
    (Grid.Dims 25 25 (generateShapePattern ratMath "star") ∧
    0 ≤ (generateShapePattern ratMath "star").get 5 12 ∧
    (generateShapePattern ratMath "star").get 5 12 ≤ 1) :=
  ⟨by decide, by decide, by decide,
    C5_shape_values_in_unit_interval ratMath "star" (by decide) 5 12 (by decide) (by decide)⟩

/-! ## Mutators -/

/-- C6: manual input-cell entry validates before mutating.  For every state, cell
`(i, j)` and entered value `val`: if `val` is `NaN`, or `val < 0`, or `val > 1`, the
input grid is unchanged and the alert is raised; otherwise cell `(i, j)` becomes
exactly `val`, every other input cell is unchanged and no alert is raised. -/
theorem C6_input_entry_validated {α : Type} [LinearOrderedField α] (s : State α)
    (hs : s.WF) (i j : Nat) (hi : i < 25) (hj : j < 25) (val : Option α) :
    ((val = none ∨ ∃ v, val = some v ∧ (v < 0 ∨ v > 1)) →
      (inputCellClick i j (some val) s).1.inputGrid = s.inputGrid ∧
      (inputCellClick i j (some val) s).2 = true) ∧
    (∀ v, val = some v → ¬ (v < 0 ∨ v > 1) →
      (inputCellClick i j (some val) s).1.inputGrid.get i j = v ∧
      (∀ i2 j2, ¬ (i2 = i ∧ j2 = j) →
        (inputCellClick i j (some val) s).1.inputGrid.get i2 j2 = s.inputGrid.get i2 j2) ∧
      Grid.Dims 25 25 (inputCellClick i j (some val) s).1.inputGrid ∧
      (inputCellClick i j (some val) s).2 = false) := by
  constructor
  · rintro (h | ⟨v, h, hv⟩)
    · subst h
      exact ⟨rfl, rfl⟩
    · subst h
      have hc : ¬ (v ≥ 0 ∧ v ≤ 1) := by
        rintro ⟨h1, h2⟩
        rcases hv with h | h
        · exact absurd h (not_lt.2 h1)
        · exact absurd h (not_lt.2 h2)
      simp [inputCellClick, hc]
  · intro v h hv
    subst h
    have hc : v ≥ 0 ∧ v ≤ 1 := by
      constructor
      · exact not_lt.1 (fun h => hv (Or.inl h))
      · exact not_lt.1 (fun h => hv (Or.inr h))
    simp only [inputCellClick, if_pos hc, performConvolution]
    refine ⟨?_, ?_, Grid.dims_set hs.input _ _ _, trivial⟩
    · rw [Grid.get_set hs.input i j hi hj]
      simp
    · intro i2 j2 hne
      rw [Grid.get_set hs.input i j hi hj, if_neg hne]

theorem C6_witness :
    (initialState : State ℚ).WF ∧ 0 < 25 ∧ 0 < 25 ∧
    (((some (3 / 2 : ℚ) = none ∨ ∃ v, some (3 / 2 : ℚ) = some v ∧ (v < 0 ∨ v > 1)) →
      (inputCellClick 0 0 (some (some (3 / 2 : ℚ))) initialState).1.inputGrid
        = initialState.inputGrid ∧
      (inputCellClick 0 0 (some (some (3 / 2 : ℚ))) initialState).2 = true) ∧
    (∀ v, some (3 / 2 : ℚ) = some v → ¬ (v < 0 ∨ v > 1) →
      (inputCellClick 0 0 (some (some (3 / 2 : ℚ))) initialState).1.inputGrid.get 0 0 = v ∧
      (∀ i2 j2, ¬ (i2 = 0 ∧ j2 = 0) →
        (inputCellClick 0 0 (some (some (3 / 2 : ℚ))) initialState).1.inputGrid.get i2 j2
          = initialState.inputGrid.get i2 j2) ∧
      Grid.Dims 25 25 (inputCellClick 0 0 (some (some (3 / 2 : ℚ))) initialState).1.inputGrid ∧
      (inputCellClick 0 0 (some (some (3 / 2 : ℚ))) initialState).2 = false)) :=
  ⟨initialState_wf, by decide, by decide,
    C6_input_entry_validated initialState initialState_wf 0 0 (by decide) (by decide)
      (some (3 / 2))⟩

theorem performConvolution_inSync {α : Type} [LinearOrderedField α] (s : State α)
    (h : Grid.Dims 23 23 s.outputGrid) : (performConvolution s).InSync := by
  have h2 := performConvolution_cells s h
  have e1 : (performConvolution s).inputGrid = s.inputGrid := by
    simp only [performConvolution]
  have e2 : (performConvolution s).kernelGrid = s.kernelGrid := by
    simp only [performConvolution]
  unfold State.InSync windowSum
  rw [e1, e2]
  exact h2

theorem initialState_inSync {α : Type} [LinearOrderedField α] :
    (initialState : State α).InSync := by
  refine ⟨zeros_dims 23, fun i j _ _ => ?_⟩
  have e1 : (initialState : State α).outputGrid = zeros 23 := rfl
  have e2 : (initialState : State α).inputGrid = zeros 25 := rfl
  rw [e1, e2, zeros_get]
  simp [windowSum, zeros_get]

theorem loadShapePattern_inSync {α : Type} [LinearOrderedField α] [FloorRing α]
    (m : MathOps α) (shape : String) (s : State α) (h : s.InSync) :
    (loadShapePattern m shape s).InSync := by
  unfold loadShapePattern
  cases shapePatterns m shape with
  | none => exact h
  | some pattern => exact performConvolution_inSync _ h.1

theorem run_inSync {α : Type} [LinearOrderedField α] [FloorRing α] (m : MathOps α)
    (a : Action α) (s : State α) (h : s.InSync) : (a.run m s).InSync := by
  cases a with
  | inputCell i j v =>
    rcases v with _ | _ | v
    · exact h
    · exact h
    · simp only [Action.run, inputCellClick]
      by_cases hc : v ≥ 0 ∧ v ≤ 1
      · rw [if_pos hc]
        exact performConvolution_inSync _ h.1
      · rw [if_neg hc]
        exact h
  | kernelCell i j v =>
    rcases v with _ | _ | v
    · exact h
    · exact h
    · exact performConvolution_inSync _ h.1
  | randomInput r => exact performConvolution_inSync _ h.1
  | resetInput => exact performConvolution_inSync _ h.1
  | randomKernel r => exact performConvolution_inSync _ h.1
  | resetKernel => exact performConvolution_inSync _ h.1
  | loadShape shape => exact loadShapePattern_inSync m shape s h

/-- C7: the output is always in sync with its operands: in the initial state, after
the start-up handler and after every mutator (accepted or rejected input-cell edit,
kernel-cell edit, `randomizeInput`, `resetInput`, `randomizeKernel`, `resetKernel`,
`loadShapePattern`), the output grid is the full convolution of the current input grid
with the current kernel grid. -/
theorem C7_output_in_sync {α : Type} [LinearOrderedField α] [FloorRing α] (m : MathOps α)
    (s : State α) (h : Reachable m s) : s.InSync := by
  induction h with
  | init => exact initialState_inSync
  | loaded =>
    exact performConvolution_inSync _ (loadShapePattern_inSync m _ _ initialState_inSync).1
  | step a s _ _ ih => exact run_inSync m a s ih

theorem C7_witness :
    Reachable ratMath
      ((Action.inputCell 3 4 (some (some (1 / 2)))).run ratMath
        ((Action.loadShape "square").run ratMath initialState)) ∧
    State.InSync
      ((Action.inputCell 3 4 (some (some (1 / 2)))).run ratMath
        ((Action.loadShape "square").run ratMath initialState)) :=
  ⟨Reachable.step _ _ (⟨by decide, by decide⟩ : 3 < inputSize ∧ 4 < inputSize)
      (Reachable.step _ _ trivial Reachable.init),
    C7_output_in_sync ratMath _
      (Reachable.step _ _ (⟨by decide, by decide⟩ : 3 < inputSize ∧ 4 < inputSize)
      (Reachable.step _ _ trivial Reachable.init))⟩

/-! ## Banded rule and symmetries -/

theorem bandFill_eq_specBanded {α : Type} [LinearOrderedField α] (d r : α) :
    bandFill d r = specBanded d r := by
  unfold bandFill specBanded clamp
  by_cases h1 : d < r - 0.5
  · rw [if_pos h1, if_pos h1]
  · rw [if_neg h1, if_neg h1]
    by_cases h2 : d < r + 0.5
    · rw [if_pos h2, if_pos h2]
      have h3 : 1 - (d - r + 0.5) ≤ 1 := by
        have := not_lt.1 h1
        linarith
      rw [min_eq_left h3]
    · rw [if_neg h2, if_neg h2]

/-- C8: circle and diamond follow the generic banded anti-aliasing rule with centre
`(12, 12)` and `R = 7`: with `d` the Euclidean distance from the centre (circle) or the
L1 distance `|i - 12| + |j - 12|` (diamond), the cell value is `1` if `d < R - 0.5`,
`clamp(1 - (d - R + 0.5), 0, 1)` if `R - 0.5 <= d < R + 0.5`, and `0` otherwise. -/
theorem C8_circle_diamond_banded {α : Type} [LinearOrderedField α] [FloorRing α]
    (m : MathOps α) (i j : Nat) (hi : i < 25) (hj : j < 25) :
    (generateShapePattern m "circle").get i j =
      specBanded
        (m.sqrt (((i : α) - 12) * ((i : α) - 12) + ((j : α) - 12) * ((j : α) - 12))) 7 ∧
    (generateShapePattern m "diamond").get i j =
      specBanded (|(i : α) - 12| + |(j : α) - 12|) 7 := by
  constructor
  · rw [(circle_cells m).2 i j hi hj, bandFill_eq_specBanded]
    rfl
  · rw [(diamond_cells m).2 i j hi hj, bandFill_eq_specBanded]
    rfl

theorem C8_witness :
    5 < 25 ∧ 12 < 25 ∧
    ((generateShapePattern ratMath "circle").get 5 12 =
      specBanded
        (ratMath.sqrt ((((5 : Nat) : ℚ) - 12) * (((5 : Nat) : ℚ) - 12) +
          (((12 : Nat) : ℚ) - 12) * (((12 : Nat) : ℚ) - 12))) 7 ∧
    (generateShapePattern ratMath "diamond").get 5 12 =
      specBanded (|((5 : Nat) : ℚ) - 12| + |((12 : Nat) : ℚ) - 12|) 7) :=
  ⟨by decide, by decide, C8_circle_diamond_banded ratMath 5 12 (by decide) (by decide)⟩

theorem cast_mirror {α : Type} [LinearOrderedField α] (i : Nat) (hi : i < 25) :
    ((24 - i : Nat) : α) = 24 - (i : α) := by
  have h : i ≤ 24 := by omega
  rw [Nat.cast_sub h]
  norm_num

/-- C9: the generated shapes have their expected symmetries: for all `i, j` in
`0..24` the circle and the diamond satisfy `pattern[i][j] = pattern[j][24-i]`
(rotation by 90 degrees about the centre cell) and the square satisfies
`pattern[i][j] = pattern[24-i][j] = pattern[i][24-j]` (the two mirrors). -/
theorem C9_shape_symmetries {α : Type} [LinearOrderedField α] [FloorRing α]
    (m : MathOps α) (i j : Nat) (hi : i < 25) (hj : j < 25) :
    (generateShapePattern m "circle").get i j =
      (generateShapePattern m "circle").get j (24 - i) ∧
    (generateShapePattern m "diamond").get i j =
      (generateShapePattern m "diamond").get j (24 - i) ∧
    (generateShapePattern m "square").get i j =
      (generateShapePattern m "square").get (24 - i) j ∧
    (generateShapePattern m "square").get i j =
      (generateShapePattern m "square").get i (24 - j) := by
  have hi2 : 24 - i < 25 := by omega
  have hj2 : 24 - j < 25 := by omega
  have ci := cast_mirror (α := α) i hi
  have cj := cast_mirror (α := α) j hj
  refine ⟨?_, ?_, ?_, ?_⟩
  · rw [(circle_cells m).2 i j hi hj, (circle_cells m).2 j (24 - i) hj hi2]
    have e : euclidDist m i j = euclidDist m j (24 - i) := by
      unfold euclidDist
      rw [ci]
      congr 1
      ring
    rw [e]
  · rw [(diamond_cells m).2 i j hi hj, (diamond_cells m).2 j (24 - i) hj hi2]
    have e : diamondDist (α := α) i j = diamondDist j (24 - i) := by
      unfold diamondDist
      rw [ci]
      have : (24 : α) - i - 12 = -((i : α) - 12) := by ring
      rw [this, abs_neg, add_comm]
    rw [e]
  · rw [(square_cells m).2 i j, (square_cells m).2 (24 - i) j]
    have e : squareDistToEdge (α := α) (24 - i) j = squareDistToEdge i j := by
      unfold squareDistToEdge
      rw [ci]
      have e1 : (24 : α) - i - ((4 : Nat) : α) = ((4 : Nat) : α) + ((17 : Nat) : α) - 1 - i := by
        push_cast; ring
      have e2 : ((4 : Nat) : α) + ((17 : Nat) : α) - 1 - (24 - (i : α)) = (i : α) - ((4 : Nat) : α) := by
        push_cast; ring
      rw [e1, e2, min_comm ((4 : Nat) + ((17 : Nat) : α) - 1 - (i : α))]
    rw [e]
    have hc : ((4 ≤ 24 - i ∧ 24 - i < 21) ∧ (4 ≤ j ∧ j < 21)) ↔
        ((4 ≤ i ∧ i < 21) ∧ (4 ≤ j ∧ j < 21)) := by omega
    simp only [hc]
  · rw [(square_cells m).2 i j, (square_cells m).2 i (24 - j)]
    have e : squareDistToEdge (α := α) i (24 - j) = squareDistToEdge i j := by
      unfold squareDistToEdge
      rw [cj]
      have e1 : (24 : α) - j - ((4 : Nat) : α) = ((4 : Nat) : α) + ((17 : Nat) : α) - 1 - j := by
        push_cast; ring
      have e2 : ((4 : Nat) : α) + ((17 : Nat) : α) - 1 - (24 - (j : α)) = (j : α) - ((4 : Nat) : α) := by
        push_cast; ring
      rw [e1, e2, min_assoc, min_assoc,
        min_comm ((4 : Nat) + ((17 : Nat) : α) - 1 - (j : α)), ← min_assoc, ← min_assoc]
    rw [e]
    have hc : ((4 ≤ i ∧ i < 21) ∧ (4 ≤ 24 - j ∧ 24 - j < 21)) ↔
        ((4 ≤ i ∧ i < 21) ∧ (4 ≤ j ∧ j < 21)) := by omega
    simp only [hc]

theorem C9_witness :
    5 < 25 ∧ 9 < 25 ∧
    ((generateShapePattern ratMath "circle").get 5 9 =
      (generateShapePattern ratMath "circle").get 9 (24 - 5) ∧
    (generateShapePattern ratMath "diamond").get 5 9 =
      (generateShapePattern ratMath "diamond").get 9 (24 - 5) ∧
    (generateShapePattern ratMath "square").get 5 9 =
      (generateShapePattern ratMath "square").get (24 - 5) 9 ∧
    (generateShapePattern ratMath "square").get 5 9 =
      (generateShapePattern ratMath "square").get 5 (24 - 9)) :=
  ⟨by decide, by decide, C9_shape_symmetries ratMath 5 9 (by decide) (by decide)⟩

/-! ## Padding -/

/-- Cell `(i, j)` lies in the border of width 4 of the 25 x 25 grid. -/
theorem border_far {α : Type} [LinearOrderedField α] (i j : Nat)
    (hb : i < 4 ∨ i > 20 ∨ j < 4 ∨ j > 20) :
    9 ≤ |(i : α) - 12| ∨ 9 ≤ |(j : α) - 12| := by
  rcases hb with h | h | h | h
  · left
    have h1 : (i : α) ≤ 3 := by exact_mod_cast (by omega : i ≤ 3)
    rw [abs_of_nonpos (by linarith)]
    linarith
  · left
    have h1 : (21 : α) ≤ i := by exact_mod_cast (by omega : 21 ≤ i)
    rw [abs_of_nonneg (by linarith)]
    linarith
  · right
    have h1 : (j : α) ≤ 3 := by exact_mod_cast (by omega : j ≤ 3)
    rw [abs_of_nonpos (by linarith)]
    linarith
  · right
    have h1 : (21 : α) ≤ j := by exact_mod_cast (by omega : 21 ≤ j)
    rw [abs_of_nonneg (by linarith)]
    linarith

theorem euclidDist_border {α : Type} [LinearOrderedField α] (m : MathOps α) (hm : m.Sound)
    (i j : Nat) (hb : i < 4 ∨ i > 20 ∨ j < 4 ∨ j > 20) : 9 ≤ euclidDist m i j := by
  have h81 : (81 : α) ≤ ((i : α) - 12) * ((i : α) - 12) + ((j : α) - 12) * ((j : α) - 12) := by
    have s1 : ((i : α) - 12) * ((i : α) - 12) = |(i : α) - 12| * |(i : α) - 12| :=
      (abs_mul_abs_self _).symm
    have s2 : ((j : α) - 12) * ((j : α) - 12) = |(j : α) - 12| * |(j : α) - 12| :=
      (abs_mul_abs_self _).symm
    have n1 : 0 ≤ |(i : α) - 12| := abs_nonneg _
    have n2 : 0 ≤ |(j : α) - 12| := abs_nonneg _
    rw [s1, s2]
    rcases border_far (α := α) i j hb with h | h
    · nlinarith
    · nlinarith
  have h9 : m.sqrt (((9 : Nat) : α) * ((9 : Nat) : α)) = ((9 : Nat) : α) := hm.sqrt_sq 9
  have h99 : ((9 : Nat) : α) * ((9 : Nat) : α) ≤
      ((i : α) - 12) * ((i : α) - 12) + ((j : α) - 12) * ((j : α) - 12) := by
    have e : ((9 : Nat) : α) * ((9 : Nat) : α) = 81 := by norm_num
    rw [e]
    exact h81
  have hmono := hm.sqrt_mono _ _ h99
  rw [h9] at hmono
  unfold euclidDist
  exact_mod_cast hmono

theorem starCurrentRadius_le {α : Type} [LinearOrderedField α] [FloorRing α] (m : MathOps α)
    (hm : m.Sound) (i j : Nat) : starCurrentRadius m i j ≤ 8 := by
  have hc : (2 * m.pi / 5) ≠ 0 := by
    have := hm.pi_pos
    positivity
  have h0 : 0 ≤ starNormalizedAngle m i j - (starPointIndex m i j : α) := by
    have := Int.floor_le (starNormalizedAngle m i j)
    unfold starPointIndex
    linarith
  have h1 : starNormalizedAngle m i j - (starPointIndex m i j : α) < 1 := by
    have := Int.lt_floor_add_one (starNormalizedAngle m i j)
    unfold starPointIndex
    linarith
  unfold starCurrentRadius
  rw [mul_div_assoc, div_self hc, mul_one]
  by_cases hp : starPointIndex m i j % 2 = 0
  · simp only [if_pos hp]
    nlinarith
  · simp only [if_neg hp]
    nlinarith

/-- C10: every shape fits inside the grid with a padding of at least 4 cells: for
each of the six shapes, every cell `(i, j)` with `i < 4`, `i > 20`, `j < 4` or `j > 20`
has value 0. -/
theorem C10_padding_cells_zero {α : Type} [LinearOrderedField α] [FloorRing α]
    (m : MathOps α) (hm : m.Sound) (shape : String) (hshape : shape ∈ shapeNames)
    (i j : Nat) (hi : i < 25) (hj : j < 25) (hb : i < 4 ∨ i > 20 ∨ j < 4 ∨ j > 20) :
    (generateShapePattern m shape).get i j = 0 := by
  have h5 : (0.5 : α) = 1 / 2 := by norm_num
  simp only [shapeNames, List.mem_cons, List.mem_singleton, List.not_mem_nil, or_false] at hshape
  rcases hshape with h | h | h | h | h | h <;> subst h
  · rw [(circle_cells m).2 i j hi hj]
    apply bandFill_zero
    have := euclidDist_border m hm i j hb
    rw [h5]
    linarith
  · rw [(square_cells m).2 i j]
    have hc : ¬ ((4 ≤ i ∧ i < 21) ∧ (4 ≤ j ∧ j < 21)) := by omega
    rw [if_neg hc]
  · rw [(triangle_cells m).2 i j]
    by_cases hc : (4 ≤ i ∧ i < 19) ∧ (0 ≤ j ∧ j < 25)
    · rw [if_pos hc]
      apply bandFill_zero
      have hj9 : 9 ≤ |(j : α) - 12| := by
        rcases border_far (α := α) 12 j (by omega) with h | h
        · norm_num at h
        · exact h
      have h4 : (4 : α) ≤ i := by exact_mod_cast hc.1.1
      unfold triangleHalfWidth
      rw [h5]
      push_cast
      linarith
    · rw [if_neg hc]
  · rw [(diamond_cells m).2 i j hi hj]
    apply bandFill_zero
    unfold diamondDist
    have n1 : 0 ≤ |(i : α) - 12| := abs_nonneg _
    have n2 : 0 ≤ |(j : α) - 12| := abs_nonneg _
    rw [h5]
    rcases border_far (α := α) i j hb with h | h
    · linarith
    · linarith
  · rw [(cross_cells m).2 i j hi hj]
    have c1 : ¬ (|(j : α) - 12| < 3 ∧ |(i : α) - 12| < 15 / 2) := by
      rintro ⟨a, b⟩
      rcases border_far (α := α) i j hb with h | h
      · linarith
      · linarith
    have c2 : ¬ (|(i : α) - 12| < 3 ∧ |(j : α) - 12| < 15 / 2) := by
      rintro ⟨a, b⟩
      rcases border_far (α := α) i j hb with h | h
      · linarith
      · linarith
    rw [if_neg c1, if_neg c2]
  · rw [(star_cells m).2 i j hi hj]
    apply bandFill_zero
    have := euclidDist_border m hm i j hb
    have := starCurrentRadius_le m hm i j
    rw [h5]
    linarith

theorem C10_witness :
    ratMath.Sound ∧ "star" ∈ shapeNames ∧ 3 < 25 ∧ 12 < 25 ∧
    (3 < 4 ∨ 3 > 20 ∨ 12 < 4 ∨ 12 > 20) ∧
    (generateShapePattern ratMath "star").get 3 12 = 0 :=
  ⟨ratMath_sound, by decide, by decide, by decide, by decide,
    C10_padding_cells_zero ratMath ratMath_sound "star" (by decide) 3 12 (by decide)
      (by decide) (by decide)⟩

/-! ## Value mapper: extreme cells and the zero grid -/

theorem round_255 {α : Type} [LinearOrderedField α] [FloorRing α] (X : α) (hX : X ≠ 0) :
    round (100 + X / X * 155 : α) = 255 := by
  have e : (100 + X / X * 155 : α) = ((255 : Int) : α) := by
    rw [div_self hX]
    norm_num
  rw [e, round_intCast]

theorem tinyOutput_dims : Grid.Dims 23 23 tinyOutput :=
  Grid.dims_set (Grid.dims_set (zeros_dims 23) 0 0 _) 1 1 _

theorem tinyOutput_get (i j : Nat) :
    tinyOutput.get i j =
      if i = 1 ∧ j = 1 then -(1 / 100000) else if i = 0 ∧ j = 0 then 1 / 100000 else 0 := by
  unfold tinyOutput
  rw [Grid.get_set (Grid.dims_set (zeros_dims 23) 0 0 _) 1 1 (by omega) (by omega),
    Grid.get_set (zeros_dims 23) 0 0 (by omega) (by omega), zeros_get]

/-- C11: for every `X >= 0.0001` and every output grid that holds `+X` in one cell, `-X`
in another and zeros elsewhere, the range is `(-X, X)`, so `maxAbs = X`, and both extreme
cells get the saturated colour of their sign: `(0, 255, 255)` for `+X` and `(255, 0, 0)`
for `-X`. -/
theorem C11_extreme_cells_saturated {α : Type} [LinearOrderedField α] [FloorRing α]
    (X : α) (hX : 0.0001 ≤ X) (out : Grid α) (hd : Grid.Dims 23 23 out)
    (a b c d : Nat) (ha : a < 23) (hb : b < 23) (hc : c < 23) (hd2 : d < 23)
    (hpos : out.get a b = X) (hneg : out.get c d = -X)
    (hzero : ∀ i j, i < 23 → j < 23 → ¬ (i = a ∧ j = b) → ¬ (i = c ∧ j = d) →
      out.get i j = 0) :
    (updateOutputGrid out).range = (Ext.fin (-X), Ext.fin X) ∧
    max |(-X)| |X| = X ∧
    (updateOutputGrid out).colors[a * 23 + b]? = some (0, 255, 255) ∧
    (updateOutputGrid out).colors[c * 23 + d]? = some (255, 0, 0) := by
  have hXpos : 0 < X := lt_of_lt_of_le (by norm_num) hX
  have hcell : ∀ i j, i < 23 → j < 23 → out.get i j = X ∨ out.get i j = -X ∨ out.get i j = 0 := by
    intro i j hi hj
    by_cases h1 : i = a ∧ j = b
    · left; rw [h1.1, h1.2, hpos]
    · by_cases h2 : i = c ∧ j = d
      · right; left; rw [h2.1, h2.2, hneg]
      · right; right; exact hzero i j hi hj h1 h2
  obtain ⟨mn, mx, ⟨i1, j1, hi1, hj1, e1⟩, hmn, ⟨i2, j2, hi2, hj2, e2⟩, hmx, hr, _, hcol⟩ :=
    updateOutputGrid_spec out hd
  have emn : mn = -X := by
    have h1 := hmn c d hc hd2
    rw [hneg] at h1
    rcases hcell i1 j1 hi1 hj1 with h | h | h
    · rw [e1] at h; linarith
    · rw [e1] at h; exact h
    · rw [e1] at h; linarith
  have emx : mx = X := by
    have h1 := hmx a b ha hb
    rw [hpos] at h1
    rcases hcell i2 j2 hi2 hj2 with h | h | h
    · rw [e2] at h; exact h
    · rw [e2] at h; linarith
    · rw [e2] at h; linarith
  subst emn emx
  have hmax : max |(-mx)| |mx| = mx := by
    rw [abs_neg, max_self, abs_of_pos hXpos]
  refine ⟨hr, hmax, ?_, ?_⟩
  · rw [hcol a b ha hb, hpos, hmax]
    have c1 : ¬ |mx| < 0.0001 := by
      rw [abs_of_pos hXpos]; exact not_lt.2 hX
    have c2 : ¬ mx < 0 := not_lt.2 (le_of_lt hXpos)
    rw [if_neg c1, if_neg c2, round_255 mx (ne_of_gt hXpos)]
  · rw [hcol c d hc hd2, hneg, hmax]
    have c1 : ¬ |(-mx)| < 0.0001 := by
      rw [abs_neg, abs_of_pos hXpos]; exact not_lt.2 hX
    have c2 : -mx < 0 := by linarith
    have c3 : ¬ mx = 0 := ne_of_gt hXpos
    rw [if_neg c1, if_pos c2, if_neg c3, abs_neg, abs_of_pos hXpos,
      round_255 mx (ne_of_gt hXpos)]

theorem C11_witness :
    (0.0001 : ℚ) ≤ 2 ∧ Grid.Dims 23 23 (((zeros 23 : Grid ℚ).set 0 0 2).set 1 1 (-2)) ∧
    0 < 23 ∧ 1 < 23 ∧
    (((zeros 23 : Grid ℚ).set 0 0 2).set 1 1 (-2)).get 0 0 = 2 ∧
    (((zeros 23 : Grid ℚ).set 0 0 2).set 1 1 (-2)).get 1 1 = -2 ∧
    ((updateOutputGrid (((zeros 23 : Grid ℚ).set 0 0 2).set 1 1 (-2))).range
        = (Ext.fin (-2), Ext.fin 2) ∧
      max |(-2 : ℚ)| |2| = 2 ∧
      (updateOutputGrid (((zeros 23 : Grid ℚ).set 0 0 2).set 1 1 (-2))).colors[0 * 23 + 0]?
        = some (0, 255, 255) ∧
      (updateOutputGrid (((zeros 23 : Grid ℚ).set 0 0 2).set 1 1 (-2))).colors[1 * 23 + 1]?
        = some (255, 0, 0)) := by
  have hd : Grid.Dims 23 23 (((zeros 23 : Grid ℚ).set 0 0 2).set 1 1 (-2)) :=
    Grid.dims_set (Grid.dims_set (zeros_dims 23) 0 0 _) 1 1 _
  have hget : ∀ i j, (((zeros 23 : Grid ℚ).set 0 0 2).set 1 1 (-2)).get i j =
      if i = 1 ∧ j = 1 then -2 else if i = 0 ∧ j = 0 then 2 else 0 := by
    intro i j
    rw [Grid.get_set (Grid.dims_set (zeros_dims 23) 0 0 _) 1 1 (by omega) (by omega),
      Grid.get_set (zeros_dims 23) 0 0 (by omega) (by omega), zeros_get]
  have h00 : (((zeros 23 : Grid ℚ).set 0 0 2).set 1 1 (-2)).get 0 0 = 2 := by
    rw [hget]; simp
  have h11 : (((zeros 23 : Grid ℚ).set 0 0 2).set 1 1 (-2)).get 1 1 = -2 := by
    rw [hget]; simp
  refine ⟨by norm_num, hd, by decide, by decide, h00, h11, ?_⟩
  exact C11_extreme_cells_saturated 2 (by norm_num) _ hd 0 0 1 1 (by decide) (by decide)
    (by decide) (by decide) h00 h11
    (fun i j _ _ n1 n2 => by rw [hget, if_neg n2, if_neg n1])

/-- The claim C11 as stated fails below the zero threshold: the grid with `+1/100000` in
cell `(0, 0)`, `-1/100000` in cell `(1, 1)` and zeros elsewhere has both extreme cells
painted black. -/
theorem C11_counterexample :
    (0 : ℚ) < 1 / 100000 ∧ Grid.Dims 23 23 tinyOutput ∧
    tinyOutput.get 0 0 = 1 / 100000 ∧ tinyOutput.get 1 1 = -(1 / 100000) ∧
    (∀ i j, ¬ (i = 0 ∧ j = 0) → ¬ (i = 1 ∧ j = 1) → tinyOutput.get i j = 0) ∧
    (updateOutputGrid tinyOutput).colors[0 * 23 + 0]? = some (0, 0, 0) ∧
    (updateOutputGrid tinyOutput).colors[0 * 23 + 0]? ≠ some (0, 255, 255) ∧
    (updateOutputGrid tinyOutput).colors[1 * 23 + 1]? = some (0, 0, 0) ∧
    (updateOutputGrid tinyOutput).colors[1 * 23 + 1]? ≠ some (255, 0, 0) := by
  obtain ⟨mn, mx, _, _, _, _, _, _, hcol⟩ := updateOutputGrid_spec tinyOutput tinyOutput_dims
  have h00 : tinyOutput.get 0 0 = 1 / 100000 := by rw [tinyOutput_get]; simp
  have h11 : tinyOutput.get 1 1 = -(1 / 100000) := by rw [tinyOutput_get]; simp
  have c0 : (updateOutputGrid tinyOutput).colors[0 * 23 + 0]? = some (0, 0, 0) := by
    rw [hcol 0 0 (by decide) (by decide), h00]
    have : |(1 / 100000 : ℚ)| < 0.0001 := by rw [abs_of_pos (by norm_num)]; norm_num
    rw [if_pos this]
  have c1 : (updateOutputGrid tinyOutput).colors[1 * 23 + 1]? = some (0, 0, 0) := by
    rw [hcol 1 1 (by decide) (by decide), h11]
    have : |(-(1 / 100000) : ℚ)| < 0.0001 := by
      rw [abs_neg, abs_of_pos (by norm_num)]; norm_num
    rw [if_pos this]
  refine ⟨by norm_num, tinyOutput_dims, h00, h11, ?_, c0, ?_, c1, ?_⟩
  · intro i j n1 n2
    rw [tinyOutput_get, if_neg n2, if_neg n1]
  · rw [c0]; decide
  · rw [c1]; decide

/-- C12: for the output grid whose cells are all zero, every mapped colour is the
background colour `(0, 0, 0)` and the reported range `(min, max)` is `(0, 0)`. -/
theorem C12_zero_grid_black {α : Type} [LinearOrderedField α] [FloorRing α] :
    (updateOutputGrid (zeros 23 : Grid α)).range = (Ext.fin 0, Ext.fin 0) ∧
    (updateOutputGrid (zeros 23 : Grid α)).colors = List.replicate (23 * 23) (0, 0, 0) := by
  obtain ⟨mn, mx, ⟨i1, j1, _, _, e1⟩, _, ⟨i2, j2, _, _, e2⟩, _, hr, hlen, hcol⟩ :=
    updateOutputGrid_spec (zeros 23 : Grid α) (zeros_dims 23)
  rw [zeros_get] at e1 e2
  subst e1 e2
  refine ⟨hr, ?_⟩
  apply List.ext_getElem?
  intro k
  by_cases hk : k < 23 * 23
  · have hdm : k / 23 * 23 + k % 23 = k := Nat.div_add_mod' k 23
    have h := hcol (k / 23) (k % 23) (by omega) (Nat.mod_lt _ (by decide))
    rw [hdm, zeros_get] at h
    have c1 : |(0 : α)| < 0.0001 := by rw [abs_zero]; norm_num
    rw [if_pos c1] at h
    rw [h, List.getElem?_replicate, if_pos hk]
  · have hl : (List.replicate (23 * 23) ((0 : Int), (0 : Int), (0 : Int))).length = 23 * 23 :=
      List.length_replicate _ _
    rw [List.getElem?_eq_none (by omega), List.getElem?_eq_none (by omega)]

/-! ## Value mapper: kernel cells -/

theorem vividness_mono {α : Type} [LinearOrderedField α] [FloorRing α] (v1 v2 : α)
    (h : |v1| ≤ |v2|) : vividness v1 ≤ vividness v2 := by
  unfold vividness
  apply min_le_min_left
  rw [round_eq, round_eq]
  apply Int.floor_mono
  linarith

theorem vividness_saturated {α : Type} [LinearOrderedField α] [FloorRing α] (v : α)
    (h : 255 ≤ |v| * 200) : vividness v = 255 := by
  unfold vividness
  apply min_eq_left
  rw [round_eq]
  apply Int.le_floor.2
  push_cast
  linarith

theorem kernelCellStyle_pos {α : Type} [LinearOrderedField α] [FloorRing α] (v : α)
    (hv : 0 < v) :
    (kernelCellStyle v).1 =
      CssColor.rgb (max 0 (100 - vividness v)) (max 0 (200 - vividness v)) 255 := by
  have hp : v > 0 := hv
  simp only [kernelCellStyle, if_pos hp, vividness, mathRound_eq_round, abs_of_pos hv]

theorem kernelCellStyle_neg {α : Type} [LinearOrderedField α] [FloorRing α] (v : α)
    (hv : v < 0) :
    (kernelCellStyle v).1 =
      CssColor.rgb 255 (max 0 (100 - vividness v)) (max 0 (100 - vividness v)) := by
  have hp : ¬ v > 0 := not_lt.2 (le_of_lt hv)
  simp only [kernelCellStyle, if_neg hp, if_pos hv, vividness, mathRound_eq_round]

/-- C13: kernel cell colour vividness is monotone in `|v|` and saturates.  With
`I(v) = min(255, round(|v| * 200))`, for `v1`, `v2` of the same sign with
`0 < |v1| <= |v2|`: `I(v1) <= I(v2)` and each non-pinned channel of the colour of `v2`
(red and green for positive values, green and blue for negative values) is at most the
same channel of the colour of `v1`; and for every `v` with `|v| * 200 >= 255` the colour
is `(0, 0, 255)` for `v > 0` and `(255, 0, 0)` for `v < 0`. -/
theorem C13_kernel_colour_monotone {α : Type} [LinearOrderedField α] [FloorRing α]
    (v1 v2 : α) (h12 : |v1| ≤ |v2|) :
    vividness v1 ≤ vividness v2 ∧
    (0 < v1 → 0 < v2 → ∃ r1 g1 r2 g2 : Int,
      (kernelCellStyle v1).1 = CssColor.rgb r1 g1 255 ∧
      (kernelCellStyle v2).1 = CssColor.rgb r2 g2 255 ∧ r2 ≤ r1 ∧ g2 ≤ g1) ∧
    (v1 < 0 → v2 < 0 → ∃ g1 b1 g2 b2 : Int,
      (kernelCellStyle v1).1 = CssColor.rgb 255 g1 b1 ∧
      (kernelCellStyle v2).1 = CssColor.rgb 255 g2 b2 ∧ g2 ≤ g1 ∧ b2 ≤ b1) ∧
    (255 ≤ |v2| * 200 →
      (0 < v2 → (kernelCellStyle v2).1 = CssColor.rgb 0 0 255) ∧
      (v2 < 0 → (kernelCellStyle v2).1 = CssColor.rgb 255 0 0)) := by
  have hI := vividness_mono v1 v2 h12
  refine ⟨hI, ?_, ?_, ?_⟩
  · intro p1 p2
    refine ⟨_, _, _, _, kernelCellStyle_pos v1 p1, kernelCellStyle_pos v2 p2, ?_, ?_⟩
    · exact max_le_max (le_refl _) (by omega)
    · exact max_le_max (le_refl _) (by omega)
  · intro n1 n2
    refine ⟨_, _, _, _, kernelCellStyle_neg v1 n1, kernelCellStyle_neg v2 n2, ?_, ?_⟩
    · exact max_le_max (le_refl _) (by omega)
    · exact max_le_max (le_refl _) (by omega)
  · intro hs
    have e := vividness_saturated v2 hs
    constructor
    · intro p
      rw [kernelCellStyle_pos v2 p, e]
      rfl
    · intro n
      rw [kernelCellStyle_neg v2 n, e]
      rfl

theorem C13_witness :
    |(1 / 10 : ℚ)| ≤ |2| ∧
    (vividness (1 / 10 : ℚ) ≤ vividness (2 : ℚ) ∧
    ((0 : ℚ) < 1 / 10 → (0 : ℚ) < 2 → ∃ r1 g1 r2 g2 : Int,
      (kernelCellStyle (1 / 10 : ℚ)).1 = CssColor.rgb r1 g1 255 ∧
      (kernelCellStyle (2 : ℚ)).1 = CssColor.rgb r2 g2 255 ∧ r2 ≤ r1 ∧ g2 ≤ g1) ∧
    ((1 / 10 : ℚ) < 0 → (2 : ℚ) < 0 → ∃ g1 b1 g2 b2 : Int,
      (kernelCellStyle (1 / 10 : ℚ)).1 = CssColor.rgb 255 g1 b1 ∧
      (kernelCellStyle (2 : ℚ)).1 = CssColor.rgb 255 g2 b2 ∧ g2 ≤ g1 ∧ b2 ≤ b1) ∧
    (255 ≤ |(2 : ℚ)| * 200 →
      ((0 : ℚ) < 2 → (kernelCellStyle (2 : ℚ)).1 = CssColor.rgb 0 0 255) ∧
      ((2 : ℚ) < 0 → (kernelCellStyle (2 : ℚ)).1 = CssColor.rgb 255 0 0))) :=
  ⟨by norm_num [abs_of_pos],
    C13_kernel_colour_monotone (1 / 10) 2 (by norm_num [abs_of_pos])⟩

/-! ## Cross, square and triangle -/

theorem crossFill_eq_min {α : Type} [LinearOrderedField α] (d : α) :
    crossFill d = min 1 (2 * d) := by
  unfold crossFill
  have e : (0.5 : α) = 1 / 2 := by norm_num
  by_cases h : d > 0.5
  · rw [if_pos h, min_eq_left]
    rw [e] at h
    linarith
  · rw [if_neg h, min_eq_right, mul_comm]
    rw [e] at h
    have := not_lt.1 h
    linarith

/-- C14: the cross uses the clamped-margin fill: for every cell, with `dx = |i - 12|`
and `dy = |j - 12|`, if `dy < 3` and `dx < 7.5` the value is `min(1, 2 * m)` with
`m = min(dy, 7.5 - dx)`; otherwise if `dx < 3` and `dy < 7.5` the value is
`min(1, 2 * m)` with `m = min(dx, 7.5 - dy)`; otherwise the value is 0. -/
theorem C14_cross_clamped_margin {α : Type} [LinearOrderedField α] [FloorRing α]
    (m : MathOps α) (i j : Nat) (hi : i < 25) (hj : j < 25) :
    (generateShapePattern m "cross").get i j =
      if |(j : α) - 12| < 3 ∧ |(i : α) - 12| < 7.5 then
        min 1 (2 * min |(j : α) - 12| (7.5 - |(i : α) - 12|))
      else if |(i : α) - 12| < 3 ∧ |(j : α) - 12| < 7.5 then
        min 1 (2 * min |(i : α) - 12| (7.5 - |(j : α) - 12|))
      else 0 := by
  have e : (7.5 : α) = 15 / 2 := by norm_num
  rw [(cross_cells m).2 i j hi hj, e, crossFill_eq_min, crossFill_eq_min]

theorem C14_witness :
    5 < 25 ∧ 13 < 25 ∧
    (generateShapePattern ratMath "cross").get 5 13 =
      if |((13 : Nat) : ℚ) - 12| < 3 ∧ |((5 : Nat) : ℚ) - 12| < 7.5 then
        min 1 (2 * min |((13 : Nat) : ℚ) - 12| (7.5 - |((5 : Nat) : ℚ) - 12|))
      else if |((5 : Nat) : ℚ) - 12| < 3 ∧ |((13 : Nat) : ℚ) - 12| < 7.5 then
        min 1 (2 * min |((5 : Nat) : ℚ) - 12| (7.5 - |((13 : Nat) : ℚ) - 12|))
      else 0 :=
  ⟨by decide, by decide, C14_cross_clamped_margin ratMath 5 13 (by decide) (by decide)⟩

theorem abs_cast_centre {α : Type} [LinearOrderedField α] (i : Nat) :
    |(i : α) - 12| = ((|(i : Int) - 12| : Int) : α) := by
  push_cast
  rfl

theorem cast_lt_three {α : Type} [LinearOrderedField α] (a : Int) : (a : α) < 3 ↔ a < 3 := by
  have : ((3 : Int) : α) = 3 := by norm_num
  rw [← this, Int.cast_lt]

theorem cast_lt_half15 {α : Type} [LinearOrderedField α] (a : Int) :
    (a : α) < 15 / 2 ↔ a ≤ 7 := by
  constructor
  · intro h
    have h2 : ((2 * a : Int) : α) < ((15 : Int) : α) := by
      push_cast
      linarith
    have h3 : 2 * a < 15 := Int.cast_lt.1 h2
    omega
  · intro h
    have h2 : (a : α) ≤ ((7 : Int) : α) := Int.cast_le.2 h
    have h3 : ((7 : Int) : α) = 7 := by norm_num
    rw [h3] at h2
    linarith

/-- The value of a bar of the cross at integer offset `x` across the bar and `y` along
it: 0 on the centre line, 1 beside it. -/
theorem crossFill_bar {α : Type} [LinearOrderedField α] (x y : Int) (hx : 0 ≤ x)
    (hy : y ≤ 7) : crossFill (min (x : α) (15 / 2 - (y : α))) = if x = 0 then 0 else 1 := by
  have hy2 : (y : α) ≤ 7 := by
    have h2 : (y : α) ≤ ((7 : Int) : α) := Int.cast_le.2 hy
    have h3 : ((7 : Int) : α) = 7 := by norm_num
    rw [h3] at h2
    exact h2
  rw [crossFill_eq_min]
  by_cases h0 : x = 0
  · subst h0
    have hle : (0 : α) ≤ 15 / 2 - (y : α) := by linarith
    rw [if_pos rfl, Int.cast_zero, min_eq_left hle, mul_zero, min_eq_right zero_le_one]
  · rw [if_neg h0]
    have h1 : (1 : α) ≤ (x : α) := by
      have h2 : ((1 : Int) : α) ≤ (x : α) := Int.cast_le.2 (by omega)
      simpa using h2
    apply min_eq_left
    have : (1 : α) / 2 ≤ min (x : α) (15 / 2 - (y : α)) := le_min (by linarith) (by linarith)
    linarith

/-- Cells of the cross in integer terms. -/
theorem cross_binary {α : Type} [LinearOrderedField α] [FloorRing α] (m : MathOps α)
    (i j : Nat) (hi : i < 25) (hj : j < 25) :
    (generateShapePattern m "cross").get i j =
      if ((|(j : Int) - 12| = 1 ∨ |(j : Int) - 12| = 2) ∧ |(i : Int) - 12| ≤ 7) ∨
          ((|(i : Int) - 12| = 1 ∨ |(i : Int) - 12| = 2) ∧
            3 ≤ |(j : Int) - 12| ∧ |(j : Int) - 12| ≤ 7)
      then 1 else 0 := by
  rw [(cross_cells m).2 i j hi hj, abs_cast_centre i, abs_cast_centre j]
  have ha : 0 ≤ |(i : Int) - 12| := abs_nonneg _
  have hb : 0 ≤ |(j : Int) - 12| := abs_nonneg _
  generalize |(i : Int) - 12| = a at ha
  generalize |(j : Int) - 12| = b at hb
  simp only [cast_lt_three, cast_lt_half15]
  by_cases c1 : b < 3 ∧ a ≤ 7
  · rw [if_pos c1, crossFill_bar b a hb c1.2]
    by_cases h0 : b = 0
    · have hr : ¬ (((b = 1 ∨ b = 2) ∧ a ≤ 7) ∨ ((a = 1 ∨ a = 2) ∧ 3 ≤ b ∧ b ≤ 7)) := by omega
      rw [if_pos h0, if_neg hr]
    · have hr : ((b = 1 ∨ b = 2) ∧ a ≤ 7) ∨ ((a = 1 ∨ a = 2) ∧ 3 ≤ b ∧ b ≤ 7) := by omega
      rw [if_neg h0, if_pos hr]
  · rw [if_neg c1]
    by_cases c2 : a < 3 ∧ b ≤ 7
    · rw [if_pos c2, crossFill_bar a b ha c2.2]
      by_cases h0 : a = 0
      · have hr : ¬ (((b = 1 ∨ b = 2) ∧ a ≤ 7) ∨ ((a = 1 ∨ a = 2) ∧ 3 ≤ b ∧ b ≤ 7)) := by omega
        rw [if_pos h0, if_neg hr]
      · have hr : ((b = 1 ∨ b = 2) ∧ a ≤ 7) ∨ ((a = 1 ∨ a = 2) ∧ 3 ≤ b ∧ b ≤ 7) := by omega
        rw [if_neg h0, if_pos hr]
    · have hr : ¬ (((b = 1 ∨ b = 2) ∧ a ≤ 7) ∨ ((a = 1 ∨ a = 2) ∧ 3 ≤ b ∧ b ≤ 7)) := by omega
      rw [if_neg c2, if_neg hr]

/-- C19: the cross pattern is binary with hollow centre lines: a cell `(i, j)` has value
1 exactly when (`|j - 12|` is 1 or 2 and `|i - 12| <= 7`) or (`|i - 12|` is 1 or 2 and
`3 <= |j - 12| <= 7`), and value 0 otherwise; in particular the centre cell `(12, 12)` and
every cell of the central column `j = 12` are 0. -/
theorem C19_cross_binary_hollow {α : Type} [LinearOrderedField α] [FloorRing α]
    (m : MathOps α) (i j : Nat) (hi : i < 25) (hj : j < 25) :
    ((generateShapePattern m "cross").get i j =
      if ((|(j : Int) - 12| = 1 ∨ |(j : Int) - 12| = 2) ∧ |(i : Int) - 12| ≤ 7) ∨
          ((|(i : Int) - 12| = 1 ∨ |(i : Int) - 12| = 2) ∧
            3 ≤ |(j : Int) - 12| ∧ |(j : Int) - 12| ≤ 7)
      then 1 else 0) ∧
    (generateShapePattern m "cross").get 12 12 = 0 ∧
    (generateShapePattern m "cross").get i 12 = 0 := by
  refine ⟨cross_binary m i j hi hj, ?_, ?_⟩
  · rw [cross_binary m 12 12 (by decide) (by decide)]
    have hr : ¬ (((|((12 : Nat) : Int) - 12| = 1 ∨ |((12 : Nat) : Int) - 12| = 2) ∧
        |((12 : Nat) : Int) - 12| ≤ 7) ∨ ((|((12 : Nat) : Int) - 12| = 1 ∨
          |((12 : Nat) : Int) - 12| = 2) ∧
          3 ≤ |((12 : Nat) : Int) - 12| ∧ |((12 : Nat) : Int) - 12| ≤ 7)) := by decide
    rw [if_neg hr]
  · rw [cross_binary m i 12 hi (by decide)]
    have hr : ¬ (((|((12 : Nat) : Int) - 12| = 1 ∨ |((12 : Nat) : Int) - 12| = 2) ∧
        |(i : Int) - 12| ≤ 7) ∨ ((|(i : Int) - 12| = 1 ∨ |(i : Int) - 12| = 2) ∧
          3 ≤ |((12 : Nat) : Int) - 12| ∧ |((12 : Nat) : Int) - 12| ≤ 7)) := by
      have e : |((12 : Nat) : Int) - 12| = 0 := by decide
      rw [e]
      omega
    rw [if_neg hr]

theorem C19_witness :
    5 < 25 ∧ 13 < 25 ∧
    (((generateShapePattern ratMath "cross").get 5 13 =
      if ((|((13 : Nat) : Int) - 12| = 1 ∨ |((13 : Nat) : Int) - 12| = 2) ∧
            |((5 : Nat) : Int) - 12| ≤ 7) ∨
          ((|((5 : Nat) : Int) - 12| = 1 ∨ |((5 : Nat) : Int) - 12| = 2) ∧
            3 ≤ |((13 : Nat) : Int) - 12| ∧ |((13 : Nat) : Int) - 12| ≤ 7)
      then 1 else 0) ∧
    (generateShapePattern ratMath "cross").get 12 12 = 0 ∧
    (generateShapePattern ratMath "cross").get 5 12 = 0) :=
  ⟨by decide, by decide, C19_cross_binary_hollow ratMath 5 13 (by decide) (by decide)⟩

theorem squareDistToEdge_cast {α : Type} [LinearOrderedField α] (i j : Nat) :
    squareDistToEdge (α := α) i j =
      ((min (min (min ((i : Int) - 4) (20 - (i : Int))) ((j : Int) - 4)) (20 - (j : Int)) : Int)
        : α) := by
  unfold squareDistToEdge
  push_cast
  have e1 : (4 : α) + 17 - 1 - (i : α) = 20 - (i : α) := by ring
  have e2 : (4 : α) + 17 - 1 - (j : α) = 20 - (j : α) := by ring
  rw [e1, e2]

/-- Cells of the square in integer terms. -/
theorem square_binary {α : Type} [LinearOrderedField α] [FloorRing α] (m : MathOps α)
    (i j : Nat) :
    (generateShapePattern m "square").get i j =
      if 5 ≤ i ∧ i ≤ 19 ∧ 5 ≤ j ∧ j ≤ 19 then 1 else 0 := by
  rw [(square_cells m).2 i j, squareDistToEdge_cast]
  generalize he : min (min (min ((i : Int) - 4) (20 - (i : Int))) ((j : Int) - 4))
    (20 - (j : Int)) = e
  have c1 : ((e : α) > 1) ↔ 2 ≤ e := by
    have : ((1 : Int) : α) = 1 := by norm_num
    rw [gt_iff_lt, ← this, Int.cast_lt]
    omega
  have c2 : ((e : α) ≥ 0) ↔ 0 ≤ e := by
    have : ((0 : Int) : α) = 0 := by norm_num
    rw [ge_iff_le, ← this, Int.cast_le]
  simp only [c1, c2]
  by_cases hb : (4 ≤ i ∧ i < 21) ∧ (4 ≤ j ∧ j < 21)
  · rw [if_pos hb]
    by_cases h2 : 2 ≤ e
    · have hr : 5 ≤ i ∧ i ≤ 19 ∧ 5 ≤ j ∧ j ≤ 19 := by omega
      rw [if_pos h2, if_pos hr]
    · rw [if_neg h2]
      have h0 : 0 ≤ e := by omega
      rw [if_pos h0]
      by_cases h1 : e = 1
      · have hr : 5 ≤ i ∧ i ≤ 19 ∧ 5 ≤ j ∧ j ≤ 19 := by omega
        rw [if_pos hr, h1]
        norm_num
      · have h3 : e = 0 := by omega
        have hr : ¬ (5 ≤ i ∧ i ≤ 19 ∧ 5 ≤ j ∧ j ≤ 19) := by omega
        rw [if_neg hr, h3]
        norm_num
  · have hr : ¬ (5 ≤ i ∧ i ≤ 19 ∧ 5 ≤ j ∧ j ≤ 19) := by omega
    rw [if_neg hb, if_neg hr]

/-- C20: the square pattern has no intermediate values: every cell is 0 or 1, and a
cell `(i, j)` is 1 exactly when `5 <= i <= 19` and `5 <= j <= 19`, so the filled region is
a 15 x 15 block and the rows and columns 4 and 20 of the nominal side-17 box are 0. -/
theorem C20_square_binary {α : Type} [LinearOrderedField α] [FloorRing α]
    (m : MathOps α) (i j : Nat) :
    ((generateShapePattern m "square").get i j = 0 ∨
      (generateShapePattern m "square").get i j = 1) ∧
    ((generateShapePattern m "square").get i j = 1 ↔ (5 ≤ i ∧ i ≤ 19 ∧ 5 ≤ j ∧ j ≤ 19)) ∧
    (generateShapePattern m "square").get 4 j = 0 ∧
    (generateShapePattern m "square").get 20 j = 0 ∧
    (generateShapePattern m "square").get i 4 = 0 ∧
    (generateShapePattern m "square").get i 20 = 0 := by
  refine ⟨?_, ?_, ?_, ?_, ?_, ?_⟩
  · rw [square_binary m i j]
    by_cases h : 5 ≤ i ∧ i ≤ 19 ∧ 5 ≤ j ∧ j ≤ 19
    · right; rw [if_pos h]
    · left; rw [if_neg h]
  · rw [square_binary m i j]
    by_cases h : 5 ≤ i ∧ i ≤ 19 ∧ 5 ≤ j ∧ j ≤ 19
    · rw [if_pos h]; exact ⟨fun _ => h, fun _ => rfl⟩
    · rw [if_neg h]; exact ⟨fun h0 => absurd h0 zero_ne_one, fun h1 => absurd h1 h⟩
  · rw [square_binary m 4 j, if_neg (by omega)]
  · rw [square_binary m 20 j, if_neg (by omega)]
  · rw [square_binary m i 4, if_neg (by omega)]
  · rw [square_binary m i 20, if_neg (by omega)]

theorem bandFill_ne_zero_iff {α : Type} [LinearOrderedField α] (d r : α) :
    bandFill d r ≠ 0 ↔ d < r + 0.5 := by
  unfold bandFill
  by_cases h1 : d < r - 0.5
  · rw [if_pos h1]
    have h5 : (0 : α) < 0.5 := by norm_num
    exact ⟨fun _ => by linarith, fun _ => one_ne_zero⟩
  · rw [if_neg h1]
    by_cases h2 : d < r + 0.5
    · rw [if_pos h2]
      have hp : 0 < 1 - (d - r + 0.5) := by linarith
      rw [max_eq_right (le_of_lt hp)]
      exact ⟨fun _ => h2, fun _ => ne_of_gt hp⟩
    · rw [if_neg h2]
      exact ⟨fun h => absurd rfl h, fun h => absurd h h2⟩

/-- The non-zero cells of the triangle in integer terms. -/
theorem triangle_nonzero_iff {α : Type} [LinearOrderedField α] [FloorRing α] (m : MathOps α)
    (i j : Nat) (hj : j < 25) :
    (generateShapePattern m "triangle").get i j ≠ 0 ↔
      (4 ≤ i ∧ i < 19 ∧ 2 * |(j : Int) - 12| + (i : Int) < 20) := by
  rw [(triangle_cells m).2 i j]
  by_cases hb : (4 ≤ i ∧ i < 19) ∧ (0 ≤ j ∧ j < 25)
  · rw [if_pos hb, bandFill_ne_zero_iff, abs_cast_centre j]
    unfold triangleHalfWidth
    have e5 : (0.5 : α) = 1 / 2 := by norm_num
    rw [e5]
    constructor
    · intro h
      have h2 : ((2 * |(j : Int) - 12| + (i : Int) : Int) : α) < ((20 : Int) : α) := by
        push_cast
        push_cast at h
        linarith
      exact ⟨hb.1.1, hb.1.2, Int.cast_lt.1 h2⟩
    · rintro ⟨_, _, h⟩
      have h2 : ((2 * |(j : Int) - 12| + (i : Int) : Int) : α) < ((20 : Int) : α) :=
        Int.cast_lt.2 h
      push_cast at h2
      push_cast
      linarith
  · rw [if_neg hb]
    constructor
    · intro h
      exact absurd rfl h
    · rintro ⟨h1, h2, _⟩
      exact absurd ⟨⟨h1, h2⟩, Nat.zero_le _, hj⟩ hb

theorem triangle_rowWidth {α : Type} [LinearOrderedField α] [FloorRing α] (m : MathOps α)
    (i : Nat) :
    rowWidth (generateShapePattern m "triangle") i =
      ((List.range 25).filter
        (fun (j : Nat) => decide (4 ≤ i ∧ i < 19 ∧ 2 * |(j : Int) - 12| + (i : Int) < 20))).length := by
  unfold rowWidth
  congr 1
  apply List.filter_congr
  intro j hj
  rw [decide_eq_decide]
  exact triangle_nonzero_iff m i j (List.mem_range.1 hj)

theorem triangle_widths (i : Nat) (h1 : 4 ≤ i) (h2 : i ≤ 18) :
    ((List.range 25).filter
      (fun (j : Nat) => decide (4 ≤ i ∧ i < 19 ∧ 2 * |(j : Int) - 12| + (i : Int) < 20))).length
      = 2 * ((19 - i) / 2) + 1 := by
  interval_cases i <;> decide

/-- Row widths of the triangle: row `i` of the rows 4..18 holds `2 * ((19 - i) / 2) + 1`
non-zero cells. -/
theorem triangle_rowWidth_eq {α : Type} [LinearOrderedField α] [FloorRing α] (m : MathOps α)
    (i : Nat) (h1 : 4 ≤ i) (h2 : i ≤ 18) :
    rowWidth (generateShapePattern m "triangle") i = 2 * ((19 - i) / 2) + 1 := by
  rw [triangle_rowWidth, triangle_widths i h1 h2]

/-- C15: the triangle pattern is apex-down: with rows rendered top to bottom, the widest
row is the topmost row 4 of the triangle (15 non-zero cells), the widths do not increase
down the rows 4..18, and the apex, the row with a single non-zero cell, is the bottom
row 18. -/
theorem C15_triangle_apex_down {α : Type} [LinearOrderedField α] [FloorRing α]
    (m : MathOps α) (i k : Nat) (h1 : 4 ≤ i) (h2 : i ≤ k) (h3 : k ≤ 18) :
    rowWidth (generateShapePattern m "triangle") 4 = 15 ∧
    rowWidth (generateShapePattern m "triangle") 18 = 1 ∧
    rowWidth (generateShapePattern m "triangle") k ≤
      rowWidth (generateShapePattern m "triangle") i := by
  refine ⟨triangle_rowWidth_eq m 4 (by omega) (by omega),
    triangle_rowWidth_eq m 18 (by omega) (by omega), ?_⟩
  rw [triangle_rowWidth_eq m k (by omega) h3, triangle_rowWidth_eq m i h1 (by omega)]
  omega

theorem C15_witness :
    4 ≤ 5 ∧ 5 ≤ 10 ∧ 10 ≤ 18 ∧
    (rowWidth (generateShapePattern ratMath "triangle") 4 = 15 ∧
    rowWidth (generateShapePattern ratMath "triangle") 18 = 1 ∧
    rowWidth (generateShapePattern ratMath "triangle") 10 ≤
      rowWidth (generateShapePattern ratMath "triangle") 5) :=
  ⟨by decide, by decide, by decide,
    C15_triangle_apex_down ratMath 5 10 (by decide) (by decide) (by decide)⟩

/-- The claim C15 as stated (apex-up: a single non-zero cell in the topmost row 4, and
no row of the triangle wider than the bottom row 18) fails: row 4 holds 15 non-zero cells
and row 18 holds one. -/
theorem C15_counterexample :
    ¬ (rowWidth (generateShapePattern ratMath "triangle") 4 = 1 ∧
      ∀ i, 4 ≤ i → i ≤ 18 →
        rowWidth (generateShapePattern ratMath "triangle") i ≤
          rowWidth (generateShapePattern ratMath "triangle") 18) := by
  rintro ⟨h, _⟩
  rw [triangle_rowWidth_eq ratMath 4 (by omega) (by omega)] at h
  omega

/-! ## Star sectors -/

theorem ratUnit_range (t : ℚ) (h0 : 0 ≤ t) (h1 : t ≤ 1) :
    0 ≤ t * (355 / 113 / 4) + 273 / 1000 * t * (1 - t) ∧
    t * (355 / 113 / 4) + 273 / 1000 * t * (1 - t) ≤ 355 / 113 / 4 := by
  have h2 : (0 : ℚ) ≤ 1 - t := by linarith
  have h3 : 0 ≤ t * (1 - t) := mul_nonneg h0 h2
  have h4 : 0 ≤ (1 - t) * (1 - t) := mul_nonneg h2 h2
  constructor
  · nlinarith
  · nlinarith

theorem ratQuad_range (Y X : ℚ) (hX : 0 ≤ X) (hY : 0 ≤ Y) (hne : ¬ (X = 0 ∧ Y = 0)) :
    0 ≤ (if Y ≤ X then Y / X * (355 / 113 / 4) + 273 / 1000 * (Y / X) * (1 - Y / X)
      else 355 / 113 / 2 - (X / Y * (355 / 113 / 4) + 273 / 1000 * (X / Y) * (1 - X / Y))) ∧
    (if Y ≤ X then Y / X * (355 / 113 / 4) + 273 / 1000 * (Y / X) * (1 - Y / X)
      else 355 / 113 / 2 - (X / Y * (355 / 113 / 4) + 273 / 1000 * (X / Y) * (1 - X / Y)))
      ≤ 355 / 113 / 2 := by
  by_cases h : Y ≤ X
  · rw [if_pos h]
    have hXpos : 0 < X := by
      rcases lt_or_eq_of_le hX with h0 | h0
      · exact h0
      · exfalso
        apply hne
        exact ⟨h0.symm, le_antisymm (by rw [← h0] at h; exact h) hY⟩
    have t0 : 0 ≤ Y / X := div_nonneg hY hX
    have t1 : Y / X ≤ 1 := (div_le_one hXpos).2 h
    have := ratUnit_range (Y / X) t0 t1
    constructor
    · exact this.1
    · linarith [this.2]
  · rw [if_neg h]
    have hlt : X < Y := not_le.1 h
    have hYpos : 0 < Y := lt_of_le_of_lt hX hlt
    have t0 : 0 ≤ X / Y := div_nonneg hX hY
    have t1 : X / Y ≤ 1 := (div_le_one hYpos).2 (le_of_lt hlt)
    have := ratUnit_range (X / Y) t0 t1
    constructor
    · linarith [this.2]
    · linarith [this.1]

theorem ratMath_atan2_range (y x : ℚ) :
    -ratMath.pi ≤ ratMath.atan2 y x ∧ ratMath.atan2 y x ≤ ratMath.pi := by
  simp only [ratMath]
  by_cases c1 : x = 0 ∧ y = 0
  · rw [if_pos c1]
    constructor <;> norm_num
  · rw [if_neg c1]
    by_cases c2 : 0 ≤ x ∧ 0 ≤ y
    · rw [if_pos c2]
      have := ratQuad_range y x c2.1 c2.2 c1
      constructor
      · linarith [this.1]
      · linarith [this.2]
    · rw [if_neg c2]
      by_cases c3 : x < 0 ∧ 0 ≤ y
      · rw [if_pos c3]
        have hne : ¬ (-x = 0 ∧ y = 0) := fun h => by linarith [h.1, c3.1]
        have := ratQuad_range y (-x) (by linarith [c3.1]) c3.2 hne
        constructor
        · linarith [this.2]
        · linarith [this.1]
      · rw [if_neg c3]
        by_cases c4 : x < 0 ∧ y < 0
        · rw [if_pos c4]
          have hne : ¬ (-x = 0 ∧ -y = 0) := fun h => by linarith [h.1, c4.1]
          have := ratQuad_range (-y) (-x) (by linarith [c4.1]) (by linarith [c4.2]) hne
          constructor
          · linarith [this.1]
          · linarith [this.2]
        · rw [if_neg c4]
          have hx : 0 ≤ x := by
            by_contra hx
            have hx2 : x < 0 := not_le.1 hx
            by_cases hy : 0 ≤ y
            · exact c3 ⟨hx2, hy⟩
            · exact c4 ⟨hx2, not_le.1 hy⟩
          have hy : y < 0 := by
            by_contra hy
            exact c2 ⟨hx, not_lt.1 hy⟩
          have hne : ¬ (x = 0 ∧ -y = 0) := fun h => by linarith [h.2]
          have := ratQuad_range (-y) x hx (by linarith) hne
          constructor
          · linarith [this.2]
          · linarith [this.1]

theorem ratMath_angleSound : ratMath.AngleSound := by
  refine ⟨by norm_num [ratMath], fun y x => (ratMath_atan2_range y x).1,
    fun y x => (ratMath_atan2_range y x).2, ?_⟩
  intro x hx
  have c1 : ¬ (x = 0 ∧ (0 : ℚ) = 0) := fun h => by linarith [h.1]
  have c2 : ¬ (0 ≤ x ∧ (0 : ℚ) ≤ 0) := fun h => by linarith [h.1]
  have c3 : x < 0 ∧ (0 : ℚ) ≤ 0 := ⟨hx, le_refl _⟩
  have c4 : (0 : ℚ) ≤ -x := by linarith
  simp only [ratMath, if_neg c1, if_neg c2, if_pos c3, if_pos c4]
  norm_num
  exact ne_of_lt hx

theorem starNormalizedAngle_range {α : Type} [LinearOrderedField α] (m : MathOps α)
    (hm : m.AngleSound) (i j : Nat) :
    0 ≤ starNormalizedAngle m i j ∧ starNormalizedAngle m i j ≤ 5 := by
  have hp := hm.pi_pos
  have hc : 0 < 2 * m.pi / 5 := by positivity
  have h1 := hm.atan2_ge ((j : α) - 12) ((i : α) - 12)
  have h2 := hm.atan2_le ((j : α) - 12) ((i : α) - 12)
  unfold starNormalizedAngle
  constructor
  · exact div_nonneg (by linarith) (le_of_lt hc)
  · rw [div_le_iff₀ hc]
    linarith

theorem starNormalizedAngle_lt {α : Type} [LinearOrderedField α] (m : MathOps α)
    (hm : m.AngleSound) (i j : Nat) (h : m.atan2 ((j : α) - 12) ((i : α) - 12) < m.pi) :
    starNormalizedAngle m i j < 5 := by
  have hp := hm.pi_pos
  have hc : 0 < 2 * m.pi / 5 := by positivity
  unfold starNormalizedAngle
  rw [div_lt_iff₀ hc]
  linarith

/-- At the cells left of the centre in the central column the angle is `PI` and the
sector index is 5. -/
theorem starPointIndex_wrap {α : Type} [LinearOrderedField α] [FloorRing α] (m : MathOps α)
    (hm : m.AngleSound) (i : Nat) (hi : i < 12) : starPointIndex m i 12 = 5 := by
  have hp := hm.pi_pos
  have hx : (i : α) - 12 < 0 := by
    have : (i : α) < 12 := by exact_mod_cast hi
    linarith
  have e0 : (((12 : Nat) : α) - 12) = 0 := by norm_num
  have e : starNormalizedAngle m i 12 = ((5 : Int) : α) := by
    unfold starNormalizedAngle
    rw [e0, hm.atan2_neg_axis _ hx]
    have hne : m.pi ≠ 0 := ne_of_gt hp
    field_simp
    ring
  unfold starPointIndex
  rw [e, Int.floor_intCast]

/-- C16: in the star generator, for every cell `(i, j)` of the 25 x 25 grid the sector
index `pointIndex = floor((atan2(j - 12, i - 12) + PI) / (2 * PI / 5))` lies in
`{0, 1, 2, 3, 4, 5}`; it is below `points = 5` wherever the angle is below `PI`, and it
is 5 at the wraparound angle `PI`, that is at the cells `(i, 12)` with `i < 12`. -/
theorem C16_star_sector_index {α : Type} [LinearOrderedField α] [FloorRing α]
    (m : MathOps α) (hm : m.AngleSound) (i j : Nat) :
    0 ≤ starPointIndex m i j ∧ starPointIndex m i j ≤ 5 ∧
    (m.atan2 ((j : α) - 12) ((i : α) - 12) < m.pi → starPointIndex m i j < 5) ∧
    (i < 12 → starPointIndex m i 12 = 5) := by
  have hr := starNormalizedAngle_range m hm i j
  refine ⟨?_, ?_, ?_, starPointIndex_wrap m hm i⟩
  · exact Int.floor_nonneg.2 hr.1
  · have h1 : ((starPointIndex m i j : Int) : α) ≤ ((5 : Int) : α) := by
      have := Int.floor_le (starNormalizedAngle m i j)
      unfold starPointIndex
      push_cast
      linarith [hr.2]
    exact Int.cast_le.1 h1
  · intro h
    have h5 := starNormalizedAngle_lt m hm i j h
    unfold starPointIndex
    rw [Int.floor_lt]
    push_cast
    exact h5

theorem C16_witness :
    ratMath.AngleSound ∧
    (0 ≤ starPointIndex ratMath 4 12 ∧ starPointIndex ratMath 4 12 ≤ 5 ∧
    (ratMath.atan2 (((12 : Nat) : ℚ) - 12) (((4 : Nat) : ℚ) - 12) < ratMath.pi →
      starPointIndex ratMath 4 12 < 5) ∧
    (4 < 12 → starPointIndex ratMath 4 12 = 5)) :=
  ⟨ratMath_angleSound, C16_star_sector_index ratMath ratMath_angleSound 4 12⟩

/-- The claim C16 as stated fails at the wraparound: at cell `(4, 12)` the angle is
`atan2(0, -8) = PI`, the normalised angle is `2 * PI / (2 * PI / 5) = 5` and the sector
index is 5, which is not in `[0, points)`. -/
theorem C16_counterexample :
    starPointIndex ratMath 4 12 = 5 ∧ ¬ (starPointIndex ratMath 4 12 < 5) := by
  have h := starPointIndex_wrap ratMath ratMath_angleSound 4 (by decide)
  refine ⟨h, ?_⟩
  rw [h]
  decide

/-! ## The circle under the default kernel -/

theorem circle_inner {α : Type} [LinearOrderedField α] [FloorRing α] (m : MathOps α)
    (hm : m.Sound) (i j : Nat) (hi : 11 ≤ i ∧ i ≤ 13) (hj : 11 ≤ j ∧ j ≤ 13) :
    (generateShapePattern m "circle").get i j = 1 := by
  rw [(circle_cells m).2 i j (by omega) (by omega)]
  have i1 : (11 : α) ≤ i := by exact_mod_cast hi.1
  have i2 : (i : α) ≤ 13 := by exact_mod_cast hi.2
  have j1 : (11 : α) ≤ j := by exact_mod_cast hj.1
  have j2 : (j : α) ≤ 13 := by exact_mod_cast hj.2
  have hle : ((i : α) - 12) * ((i : α) - 12) + ((j : α) - 12) * ((j : α) - 12) ≤
      ((2 : Nat) : α) * ((2 : Nat) : α) := by
    push_cast
    nlinarith
  have h2 := hm.sqrt_mono _ _ hle
  rw [hm.sqrt_sq 2] at h2
  have hd : euclidDist m i j < 7 - 0.5 := by
    unfold euclidDist
    have : (((2 : Nat) : α)) < 7 - 0.5 := by norm_num
    exact lt_of_le_of_lt h2 this
  unfold bandFill
  rw [if_pos hd]

/-- The centre response of the circle under the default kernel in exact arithmetic:
the nine input cells around the centre are 1 and the kernel entries sum to 0. -/
theorem circle_centre_response {α : Type} [LinearOrderedField α] [FloorRing α]
    (m : MathOps α) (hm : m.Sound) :
    (convolve (generateShapePattern m "circle") (initialState : State α).kernelGrid).get 11 11
      = 0 := by
  rw [(convolve_cells _ _).2 11 11 (by omega) (by omega)]
  have c := fun i j hi hj => circle_inner m hm i j hi hj
  simp only [windowSum, Finset.sum_range_succ, Finset.sum_range_zero, zero_add, Nat.add_zero]
  rw [c 11 11 (by omega) (by omega), c 11 (11 + 1) (by omega) (by omega),
    c 11 (11 + 2) (by omega) (by omega), c (11 + 1) 11 (by omega) (by omega),
    c (11 + 1) (11 + 1) (by omega) (by omega), c (11 + 1) (11 + 2) (by omega) (by omega),
    c (11 + 2) 11 (by omega) (by omega), c (11 + 2) (11 + 1) (by omega) (by omega),
    c (11 + 2) (11 + 2) (by omega) (by omega)]
  simp [initialState, Grid.get]
  norm_num

/-- The centre response of the circle under the default kernel lies below the zero
threshold of the value mapper, and the mapper paints the centre output cell black. -/
theorem circle_centre_black {α : Type} [LinearOrderedField α] [FloorRing α]
    (m : MathOps α) (hm : m.Sound) :
    |(convolve (generateShapePattern m "circle")
      (initialState : State α).kernelGrid).get 11 11| < 0.0001 ∧
    (updateOutputGrid (convolve (generateShapePattern m "circle")
      (initialState : State α).kernelGrid)).colors[11 * 23 + 11]? = some (0, 0, 0) := by
  have hlt : |(convolve (generateShapePattern m "circle")
      (initialState : State α).kernelGrid).get 11 11| < 0.0001 := by
    rw [circle_centre_response m hm, abs_zero]
    norm_num
  refine ⟨hlt, ?_⟩
  obtain ⟨mn, mx, _, _, _, _, _, _, hcol⟩ := updateOutputGrid_spec
    (convolve (generateShapePattern m "circle") (initialState : State α).kernelGrid)
    (convolve_cells _ _).1
  rw [hcol 11 11 (by omega) (by omega), if_pos hlt]

/-- C17: with the input equal to the generated 25 x 25 circle pattern and the kernel
equal to the default edge-detection kernel, the nine input cells read by the centre
output cell are all 1 and `output[11][11]` is not strongly positive: it lies within the
zero threshold of the value mapper, `|output[11][11]| < 0.0001`, and the mapper paints
the cell with the background colour `(0, 0, 0)`. -/
theorem C17_circle_centre_below_threshold {α : Type} [LinearOrderedField α] [FloorRing α]
    (m : MathOps α) (hm : m.Sound) :
    (∀ ki kj, ki < 3 → kj < 3 → (generateShapePattern m "circle").get (11 + ki) (11 + kj) = 1) ∧
    |(convolve (generateShapePattern m "circle")
      (initialState : State α).kernelGrid).get 11 11| < 0.0001 ∧
    (updateOutputGrid (convolve (generateShapePattern m "circle")
      (initialState : State α).kernelGrid)).colors[11 * 23 + 11]? = some (0, 0, 0) :=
  ⟨fun ki kj h1 h2 => circle_inner m hm _ _ (by omega) (by omega),
    (circle_centre_black m hm).1, (circle_centre_black m hm).2⟩

theorem C17_witness :
    ratMath.Sound ∧
    ((∀ ki kj, ki < 3 → kj < 3 →
      (generateShapePattern ratMath "circle").get (11 + ki) (11 + kj) = 1) ∧
    |(convolve (generateShapePattern ratMath "circle")
      (initialState : State ℚ).kernelGrid).get 11 11| < 0.0001 ∧
    (updateOutputGrid (convolve (generateShapePattern ratMath "circle")
      (initialState : State ℚ).kernelGrid)).colors[11 * 23 + 11]? = some (0, 0, 0)) :=
  ⟨ratMath_sound, C17_circle_centre_below_threshold ratMath ratMath_sound⟩

/-- The claim C17 as stated fails: for the circle pattern and the default kernel the
centre output cell is not strongly positive.  Its value does not reach the zero
threshold 0.0001 of the value mapper, and the mapper paints it `(0, 0, 0)`, the colour
of a zero cell, not a colour `(0, c, c)` of a positive cell (those have `c >= 100`). -/
theorem C17_counterexample :
    ¬ (0.0001 ≤ (convolve (generateShapePattern ratMath "circle")
      (initialState : State ℚ).kernelGrid).get 11 11) ∧
    (updateOutputGrid (convolve (generateShapePattern ratMath "circle")
      (initialState : State ℚ).kernelGrid)).colors[11 * 23 + 11]? = some (0, 0, 0) ∧
    ¬ ∃ c : Int, 100 ≤ c ∧
      (updateOutputGrid (convolve (generateShapePattern ratMath "circle")
        (initialState : State ℚ).kernelGrid)).colors[11 * 23 + 11]? = some (0, c, c) := by
  have h := circle_centre_black ratMath ratMath_sound
  refine ⟨?_, h.2, ?_⟩
  · intro hge
    have h1 := lt_of_le_of_lt (le_abs_self _) h.1
    exact absurd hge (not_le.2 h1)
  · rintro ⟨c, hc, he⟩
    rw [h.2] at he
    have e2 : (0 : Int) = c := by
      have := Option.some.inj he
      exact (Prod.mk.inj (Prod.mk.inj this).2).1
    omega

/-! ## Input range -/

theorem set_local {α : Type} [Zero α] (n w : Nat) (v : Nat → Nat → α) :
    CellLocal n w (fun i j (g : Grid α) => g.set i j (v i j)) (fun i j _ => v i j) := by
  intro i j g hg hi hj
  exact ⟨Grid.dims_set hg _ _ _, fun i2 j2 => Grid.get_set hg i j hi hj _ i2 j2⟩

/-- Two nested loops that overwrite every cell of a 25 x 25 grid. -/
theorem fill_input {α : Type} [Zero α] (v : Nat → Nat → α) (g : Grid α)
    (hg : Grid.Dims 25 25 g) :
    Grid.Dims 25 25 (forLoop 0 inputSize g fun i t => forLoop 0 inputSize t fun j u =>
      u.set i j (v i j)) ∧
    ∀ i j, i < 25 → j < 25 →
      (forLoop 0 inputSize g fun i t => forLoop 0 inputSize t fun j u =>
        u.set i j (v i j)).get i j = v i j := by
  have e : inputSize = 25 := rfl
  rw [e]
  have h := block_fill (n := 25) (w := 25) 0 25 0 25 (Nat.zero_le _) (le_refl _)
    (Nat.zero_le _) (le_refl _) _ _ (set_local 25 25 v) g hg
  refine ⟨h.1, fun i j hi hj => ?_⟩
  have h2 := h.2 i j
  have hc : (0 ≤ i ∧ i < 25) ∧ (0 ≤ j ∧ j < 25) := by omega
  rw [if_pos hc] at h2
  exact h2

theorem inputInRange_with {α : Type} [LinearOrderedField α] (s : State α) (g : Grid α)
    (hd : Grid.Dims 25 25 g) (hr : ∀ i j, i < 25 → j < 25 → 0 ≤ g.get i j ∧ g.get i j ≤ 1) :
    State.InputInRange { s with inputGrid := g } :=
  ⟨hd, hr⟩

theorem performConvolution_inputInRange {α : Type} [LinearOrderedField α] (s : State α)
    (h : s.InputInRange) : (performConvolution s).InputInRange := by
  have e : (performConvolution s).inputGrid = s.inputGrid := by
    simp only [performConvolution]
  unfold State.InputInRange
  rw [e]
  exact h

theorem shapePatterns_some {α : Type} [LinearOrderedField α] [FloorRing α] (m : MathOps α)
    (shape : String) (pattern : Grid α) (h : shapePatterns m shape = some pattern) :
    shape ∈ shapeNames ∧ pattern = generateShapePattern m shape := by
  unfold shapePatterns at h
  unfold shapeNames
  split_ifs at h with h1 h2 h3 h4 h5 h6 <;>
    (subst_vars; exact ⟨by decide, (Option.some.inj h).symm⟩)

theorem shapePatterns_none {α : Type} [LinearOrderedField α] [FloorRing α] (m : MathOps α)
    (shape : String) (h : shape ∉ shapeNames) : shapePatterns (α := α) m shape = none := by
  cases e : shapePatterns (α := α) m shape with
  | none => rfl
  | some pattern => exact absurd (shapePatterns_some m shape pattern e).1 h

theorem loadShapePattern_inputInRange {α : Type} [LinearOrderedField α] [FloorRing α]
    (m : MathOps α) (shape : String) (s : State α) (h : s.InputInRange) :
    (loadShapePattern m shape s).InputInRange := by
  unfold loadShapePattern
  cases e : shapePatterns m shape with
  | none => exact h
  | some pattern =>
    obtain ⟨hs, hp⟩ := shapePatterns_some m shape pattern e
    apply performConvolution_inputInRange
    have hf := fill_input (fun i j => pattern.get i j) s.inputGrid h.1
    refine inputInRange_with s _ hf.1 (fun i j hi hj => ?_)
    rw [hf.2 i j hi hj, hp]
    exact (generateShapePattern_range m shape hs i j hi hj).2

theorem run_inputInRange {α : Type} [LinearOrderedField α] [FloorRing α] (m : MathOps α)
    (a : Action α) (s : State α) (ho : a.Offered) (hu : a.UnitDraws) (h : s.InputInRange) :
    (a.run m s).InputInRange := by
  cases a with
  | inputCell i j v =>
    rcases v with _ | _ | v
    · exact h
    · exact h
    · simp only [Action.run, inputCellClick]
      by_cases hc : v ≥ 0 ∧ v ≤ 1
      · rw [if_pos hc]
        apply performConvolution_inputInRange
        have hi : i < 25 := ho.1
        have hj : j < 25 := ho.2
        refine inputInRange_with s _ (Grid.dims_set h.1 _ _ _) (fun i2 j2 hi2 hj2 => ?_)
        rw [Grid.get_set h.1 i j hi hj]
        by_cases e : i2 = i ∧ j2 = j
        · rw [if_pos e]; exact ⟨hc.1, hc.2⟩
        · rw [if_neg e]; exact h.2 i2 j2 hi2 hj2
      · rw [if_neg hc]
        exact h
  | kernelCell i j v =>
    rcases v with _ | _ | v
    · exact h
    · exact h
    · exact performConvolution_inputInRange _ h
  | randomInput r =>
    apply performConvolution_inputInRange
    have hf := fill_input (fun i j => r (i * inputSize + j)) s.inputGrid h.1
    refine inputInRange_with s _ hf.1 (fun i j hi hj => ?_)
    rw [hf.2 i j hi hj]
    exact ⟨(hu _).1, le_of_lt (hu _).2⟩
  | resetInput =>
    apply performConvolution_inputInRange
    refine inputInRange_with s _ (zeros_dims 25) (fun i j _ _ => ?_)
    rw [zeros_get]
    exact ⟨le_refl _, zero_le_one⟩
  | randomKernel r => exact performConvolution_inputInRange _ h
  | resetKernel => exact performConvolution_inputInRange _ h
  | loadShape shape => exact loadShapePattern_inputInRange m shape s h

theorem initialState_inputInRange {α : Type} [LinearOrderedField α] :
    (initialState : State α).InputInRange := by
  refine ⟨zeros_dims 25, fun i j _ _ => ?_⟩
  have e : (initialState : State α).inputGrid = zeros 25 := rfl
  rw [e, zeros_get]
  exact ⟨le_refl _, zero_le_one⟩

/-- C18: input range invariant: in every state reachable from the initial all-zero input
grid through the mutators (manual cell edit, `randomizeInput` with each draw in `[0, 1)`,
`resetInput`, `loadShapePattern` with any shape identifier, and the kernel mutators),
every input cell lies in `[0, 1]`; and `loadShapePattern` with an identifier outside the
six shapes leaves the state, hence the input, unchanged. -/
theorem C18_input_range_invariant {α : Type} [LinearOrderedField α] [FloorRing α]
    (m : MathOps α) (s : State α) (h : ReachableUnit m s) (shape : String)
    (hshape : shape ∉ shapeNames) :
    s.InputInRange ∧ loadShapePattern m shape s = s := by
  constructor
  · induction h with
    | init => exact initialState_inputInRange
    | loaded =>
      exact performConvolution_inputInRange _
        (loadShapePattern_inputInRange m _ _ initialState_inputInRange)
    | step a s ho hu _ ih => exact run_inputInRange m a s ho hu ih
  · unfold loadShapePattern
    rw [shapePatterns_none m shape hshape]

theorem C18_witness :
    ReachableUnit ratMath
      ((Action.inputCell 3 4 (some (some (1 / 2)))).run ratMath
        ((Action.loadShape "star").run ratMath initialState)) ∧
    "hexagon" ∉ shapeNames ∧
    (State.InputInRange
      ((Action.inputCell 3 4 (some (some (1 / 2)))).run ratMath
        ((Action.loadShape "star").run ratMath initialState)) ∧
    loadShapePattern ratMath "hexagon"
      ((Action.inputCell 3 4 (some (some (1 / 2)))).run ratMath
        ((Action.loadShape "star").run ratMath initialState)) =
      (Action.inputCell 3 4 (some (some (1 / 2)))).run ratMath
        ((Action.loadShape "star").run ratMath initialState)) :=
  ⟨ReachableUnit.step (Action.inputCell 3 4 (some (some (1 / 2)))) _
      ⟨by decide, by decide⟩ trivial
      (ReachableUnit.step (Action.loadShape "star") _ trivial trivial ReachableUnit.init),
    by decide,
    C18_input_range_invariant ratMath _
      (ReachableUnit.step (Action.inputCell 3 4 (some (some (1 / 2)))) _
        ⟨by decide, by decide⟩ trivial
        (ReachableUnit.step (Action.loadShape "star") _ trivial trivial ReachableUnit.init))
      "hexagon" (by decide)⟩

end Convolu
